import Mathlib

/-!
Verification of the `how-to-use-appify` sample scripts (src/python-samples/).

The repository is twelve standalone Python scripts that call the Apify REST
API through its client library and pretty-print the results.  This file
gives a shallow embedding of the pieces of those scripts that the
specification talks about:

* a small model of Python values (`PyVal`) and of the helper
  `format_number` shared by `06_tiktok_scraper.py` and
  `07_twitter_scraper.py`;
* the truncation helpers used when rendering result tables in
  `02_website_content_crawler.py` and `08_amazon_scraper.py`;
* the status-polling loop of `11_run_management.py`;
* trace-producing models of the scripts' `main` functions, with remote
  calls supplied by an oracle (each call either returns a value or raises);
* a model of the remote key-value store and dataset storage, written from
  the specification's data-model section (the store itself is the hosted
  service, not code of this repository).

Machine floats only appear in the scripts inside f-string renderings such
as `f"{num/1_000:.1f}K"`, always applied to API counters (integers).  The
embedding performs that division exactly over `Rat` and rounds half-to-even
(the rounding used by IEEE formatting); for integer inputs the two agree
except possibly at exact ties `n % 100 = 50`, and no theorem below depends
on a tie case.
-/

/-- Model of the Python values the scripts handle (JSON-ish data coming back
from the API plus the literals appearing in the scripts).  Python `bool` is a
subclass of `int`; for the one function that branches on
`isinstance(num, (int, float))` both the numeric and the non-numeric path
send a `bool` to `str(num)`, so `bool` is modelled through the non-numeric
branch without changing any observable string. -/
inductive PyVal where
  | none
  | bool (b : Bool)
  | int (n : Int)
  | float (q : Rat)
  | str (s : String)
  | list (xs : List PyVal)
  | dict (kvs : List (String × PyVal))

/-- Python truthiness (`if value:`) for the modelled values. -/
def PyVal.truthy : PyVal → Bool
  | .none => false
  | .bool b => b
  | .int n => n != 0
  | .float q => q != 0
  | .str s => !s.isEmpty
  | .list xs => !xs.isEmpty
  | .dict kvs => !kvs.isEmpty

/-- The check `isinstance(num, (int, float))` of `format_number`
(see the doc comment of `PyVal` for why `bool` is sent to the other
branch). -/
def PyVal.isNumeric : PyVal → Bool
  | .int _ => true
  | .float _ => true
  | _ => false

/-- Python `str()` on the modelled values.  Integers, `None`, booleans and
strings are rendered exactly as Python renders them.  The shortest-roundtrip
repr of floats and the bracketed repr of containers are not reproduced
character by character (no claim inspects those strings); they are rendered
by placeholders. -/
def pyStr : PyVal → String
  | .none => "None"
  | .bool b => if b then "True" else "False"
  | .int n => toString n
  | .float _ => "<float>"
  | .str s => s
  | .list _ => "<list>"
  | .dict _ => "<dict>"

/-- Round `a / b` to the nearest integer, ties to even — the rounding
performed by Python's fixed-point formatting.  Only the value of `a / b`
matters: the result is invariant under scaling `a` and `b` together. -/
def roundHalfEvenDiv (a b : Nat) : Nat :=
  if 2 * (a % b) < b then a / b
  else if b < 2 * (a % b) then a / b + 1
  else if (a / b) % 2 = 0 then a / b else a / b + 1

/-- Render a nonnegative count of tenths as Python's `"%.1f"` output shape:
`tenthsToString 10000 = "1000.0"`, `tenthsToString 10 = "1.0"`. -/
def tenthsToString (t : Nat) : String :=
  let ip := t / 10
  let fp := t % 10
  s!"{ip}.{fp}"

/-- The numeric path of `format_number` (src/python-samples/06_tiktok_scraper.py
lines 44-50 and identically 07_twitter_scraper.py lines 43-49):

    if num >= 1_000_000: return f"{num/1_000_000:.1f}M"
    elif num >= 1_000:   return f"{num/1_000:.1f}K"
    return str(num)

`num` is a nonnegative rational on the two formatted branches (they are
guarded by `num >= 1000`); the division is carried out exactly on the
fraction `num.num / num.den` and rounded to tenths half-to-even.
`strOfNum` is the already-rendered `str(num)` for the final branch. -/
def formatNumeric (num : Rat) (strOfNum : String) : String :=
  if 1000000 ≤ num then
    tenthsToString (roundHalfEvenDiv (10 * num.num.toNat) (1000000 * num.den)) ++ "M"
  else if 1000 ≤ num then
    tenthsToString (roundHalfEvenDiv (10 * num.num.toNat) (1000 * num.den)) ++ "K"
  else strOfNum

/-- `format_number` from src/python-samples/06_tiktok_scraper.py lines 42-50,
textually identical in 07_twitter_scraper.py lines 41-49:

    def format_number(num):
        if not isinstance(num, (int, float)):
            return str(num)
        ...numeric path...
-/
def format_number (num : PyVal) : String :=
  match num with
  | .int n => formatNumeric (n : Rat) (toString n)
  | .float q => formatNumeric q (pyStr (.float q))
  | v => pyStr v

/-- The tenths value rendered before the `"K"` suffix for an integer input
`n ≥ 1000`: the claim's "one-decimal numeric prefix" of `format_number n`
is strictly below `1000` exactly when `kTenths n < 10000`. -/
def kTenths (n : Int) : Nat := roundHalfEvenDiv (10 * n.toNat) 1000

/-!
## Remote key-value store (claim C6)

The store lives in the hosted service; only its client calls appear in
src/python-samples/10_key_value_store.py.  Its semantics is therefore
modelled from the spec.
-/

/-- A stored record as returned by `store.get_record(key)`: the client
yields a dict with the key, the decoded value and the content type. -/
structure KVRecord where
  key : String
  value : PyVal
  contentType : Option String

/-- Modelled from the spec: "Key-Value Store: a mapping from string keys to
arbitrary byte payloads with content-type metadata; supports
get/set/delete/list-keys."  The mapping is represented as a list of records
in which the most recent write of a key shadows the earlier ones. -/
abbrev KVStore : Type := List KVRecord

/-- Modelled from the spec: `store.set_record(key, value, content_type)`
writes `value` under `key`, overwriting any previous value. -/
def set_record (st : KVStore) (k : String) (v : PyVal) (ct : Option String) : KVStore :=
  (⟨k, v, ct⟩ : KVRecord) :: st

/-- Modelled from the spec: `store.get_record(key)` returns the record most
recently written under `key`, or `None` when the key is absent. -/
def get_record (st : KVStore) (k : String) : Option KVRecord :=
  List.find? (fun r => r.key == k) st

/-- Modelled from the spec: `store.delete_record(key)` removes the key. -/
def delete_record (st : KVStore) (k : String) : KVStore :=
  List.filter (fun r => r.key != k) st

/-- Modelled from the spec: `store.list_keys()` lists the distinct keys. -/
def list_keys (st : KVStore) : List String :=
  (List.map (fun r => r.key) st).eraseDups

/-!
## The status-polling loop of 11_run_management.py (claim C3)
-/

/-- The constant `max_wait = 60  # seconds` of
src/python-samples/11_run_management.py line 151. -/
def max_wait : Nat := 60

/-- The constant `poll_interval = 2` of 11_run_management.py line 152. -/
def poll_interval : Nat := 2

/-- The statuses on which the loop breaks early
(11_run_management.py line 172). -/
def terminalStatuses : List String :=
  ["SUCCEEDED", "FAILED", "ABORTED", "TIMED-OUT"]

/-- The polling loop of 11_run_management.py lines 153-180:

    elapsed = 0
    while elapsed < max_wait:
        current_run = run_client.get()
        status = current_run.get("status")
        if status in ["SUCCEEDED", "FAILED", "ABORTED", "TIMED-OUT"]:
            break
        time.sleep(poll_interval)
        elapsed += poll_interval

`get elapsed` is the status reported by `run_client.get()` at that elapsed
time.  The loop is bounded by its own guard; `fuel` only makes the
recursion structural and is always called with `poll_interval * fuel
= max_wait - elapsed`, so the fuel-exhausted branch coincides with the
guard-false branch (both return without polling).  The result is the number
of `run_client.get()` calls made and whether the loop broke early. -/
def pollFrom (get : Nat → String) : Nat → Nat → Nat × Bool
  | _, 0 => (0, false)
  | elapsed, fuel + 1 =>
    if elapsed < max_wait then
      if terminalStatuses.contains (get elapsed) then (1, true)
      else
        let r := pollFrom get (elapsed + poll_interval) fuel
        (r.1 + 1, r.2)
    else (0, false)

/-- The whole loop, started at `elapsed = 0` with enough fuel
(`max_wait / poll_interval = 30`) for the guard to be the only bound. -/
def pollRun (get : Nat → String) : Nat × Bool :=
  pollFrom get 0 (max_wait / poll_interval)


/-!
## Trace-producing script models

Each script's `main` is a straight-line procedure: console prints, one
client construction, and a sequence of blocking remote calls any of which
may raise.  A run of a script is modelled as an `Outcome`: the list of
observable events, and how the process ended.  Remote responses are
supplied by per-script oracles; a remote call wrapped in `try/except` in
the source handles the `.error` case locally, an unwrapped one turns it
into an `uncaught` termination, exactly mirroring Python exception flow.
Console output is traced at the granularity the claims need: rendered table
rows are traced cell-by-cell, other prints by an abbreviated line (markup,
`:,` digit grouping and multi-line panel text are not reproduced).
-/

/-- A raised exception, identified by its message. -/
abbrev PyErr : Type := String

/-- Observable events of a script run. -/
inductive Ev where
  | print (s : String)
  | constructClient
  | remoteCall (name : String)
  | tableRow (cells : List String)
  | createSchedule (isEnabled : Bool)
deriving DecidableEq

/-- How the process ended: fell off the end of `main`, called
`sys.exit(code)`, or died on an uncaught exception. -/
inductive Term where
  | normal
  | exited (code : Nat)
  | uncaught (e : String)
deriving DecidableEq

/-- The result of running one script. -/
structure Outcome where
  events : List Ev
  term : Term

/-- An event is a plain console print (neither a client construction nor a
remote call nor a schedule mutation). -/
def Ev.isPrint : Ev → Bool
  | .print _ => true
  | .tableRow _ => true
  | _ => false

/-- The names of the remote calls in a trace, in order. -/
def remoteTrace (evs : List Ev) : List String :=
  evs.filterMap fun e =>
    match e with
    | .remoteCall n => some n
    | _ => Option.none

/-- Python's `s[:n]` on a string (first `n` characters). -/
def pySlice (s : String) (n : Nat) : String :=
  String.mk (s.toList.take n)

/-- The token lookup and guard shared verbatim by every script's `main`
(e.g. 01_hello_world.py lines 48-55, 02_website_content_crawler.py lines
50-53):

    api_token = os.environ.get("APIFY_API_TOKEN")
    if not api_token:
        console.print("[red]Error:[/red] APIFY_API_TOKEN not set!")
        sys.exit(1)
    from apify_client import ApifyClient
    client = ApifyClient(api_token)

`token` is `os.environ.get("APIFY_API_TOKEN")` (`Option.none` when the
variable is unset); the guard also fires on an empty string, Python's other
falsy case.  `banner` abbreviates the panel printed at the top of `main`
and `errMsg` the script's error line.  `rest` is the remainder of the
script after the client is constructed; the scripts whose remainder no
claim inspects are modelled with `rest` left abstract. -/
def scriptEntry (banner errMsg : String) (token : Option String)
    (rest : String → Outcome) : Outcome :=
  match token with
  | Option.none =>
      { events := [Ev.print banner, Ev.print errMsg], term := .exited 1 }
  | some t =>
      if t.isEmpty then
        { events := [Ev.print banner, Ev.print errMsg], term := .exited 1 }
      else
        let r := rest t
        { events := [Ev.print banner, Ev.constructClient] ++ r.events, term := r.term }

/-- src/python-samples/01_hello_world.py `main` (lines 34-148); the body
after client construction (user info, actor listing, summary) is `rest`. -/
def script01_main (token : Option String) (rest : String → Outcome) : Outcome :=
  scriptEntry "01 - Hello World"
    "Error: APIFY_API_TOKEN environment variable not set!" token rest

/-- src/python-samples/10_key_value_store.py `main` (lines 40-297); the
store operations of its body are modelled by `set_record` / `get_record` /
`delete_record` above. -/
def script10_main (token : Option String) (rest : String → Outcome) : Outcome :=
  scriptEntry "10 - Key-Value Store Operations"
    "Error: APIFY_API_TOKEN not set!" token rest

/-- src/python-samples/11_run_management.py `main` (lines 42-313); the
polling loop of its body is `pollRun` above. -/
def script11_main (token : Option String) (rest : String → Outcome) : Outcome :=
  scriptEntry "11 - Run Management"
    "Error: APIFY_API_TOKEN not set!" token rest

/-!
## 02_website_content_crawler.py, modelled in full
-/

/-- The fields of the run object the scripts read
(`run.get("defaultDatasetId")`). -/
structure RunInfo where
  defaultDatasetId : Option String

/-- One dataset item of the website-content-crawler run, restricted to the
fields 02_website_content_crawler.py reads; `title`, `description` and
`languageCode` live under the item's `metadata` dict, an absent field
models an absent key (the source supplies the default via `.get`). -/
structure CrawlItem where
  url : Option String
  title : Option String
  description : Option String
  languageCode : Option String
  text : Option String
  markdown : Option String

/-- The URL cell of the crawled-pages table
(02_website_content_crawler.py lines 153-154):

    if len(url) > 47:
        url = url[:47] + "..."
-/
def urlCell (url : String) : String :=
  if url.length > 47 then pySlice url 47 ++ "..." else url

/-- The title cell of the crawled-pages table (lines 155-156):

    if len(title) > 37:
        title = title[:37] + "..."
-/
def titleCell (title : String) : String :=
  if title.length > 37 then pySlice title 37 ++ "..." else title

/-- One row of the crawled-pages table (lines 147-158); `i` is the
1-based index from `enumerate(items, 1)`. -/
def crawlRow (i : Nat) (item : CrawlItem) : List String :=
  let url := item.url.getD "Unknown"
  let title := item.title.getD "No title"
  let textLength := (item.text.getD "").length
  [toString i, urlCell url, titleCell title, s!"{textLength} chars"]

/-- The sample-content section printed for the first crawled page
(lines 163-183); only reached when `items` is nonempty. -/
def samplePrints02 (first : CrawlItem) : List Ev :=
  [Ev.print ("Title: " ++ first.title.getD "N/A"),
   Ev.print ("Description: " ++ pySlice (first.description.getD "N/A") 100 ++ "..."),
   Ev.print ("Language: " ++ first.languageCode.getD "N/A")]
  ++ (let text := first.text.getD ""
      if text.isEmpty then []
      else [Ev.print ("Content Preview: " ++
             (if text.length > 500 then pySlice text 500 ++ "..." else text))])
  ++ (let md := first.markdown.getD ""
      if md.isEmpty then []
      else
        let n := md.length
        [Ev.print s!"Markdown available: {n} characters"])

/-- The two remote calls every scraper script (02-08) makes:
`client.actor(ACTOR_ID).call(run_input=run_input)` and
`list(dataset_client.iterate_items())`. -/
structure ScraperOracle (Item : Type) where
  callRun : Except String RunInfo
  iterItems : Except String (List Item)

/-- The oracle of 02_website_content_crawler.py: actor call at line 113,
dataset iteration at line 133. -/
abbrev Oracle02 : Type := ScraperOracle CrawlItem

/-- src/python-samples/02_website_content_crawler.py `main` (lines 40-203).
The actor call is inside `try/except` (lines 111-119): on failure the error
is shown and the script exits 1.  The dataset iteration (line 133) is not
guarded: its failure propagates out of `main`.  The per-item table (lines
138-160) and the sample-content section (lines 163-183) are only rendered
when `items` is nonempty; the closing summary (lines 189-203) always
prints the item count. -/
def script02_main (token : Option String) (o : Oracle02) : Outcome :=
  let banner := [Ev.print "02 - Website Content Crawler"]
  match token with
  | Option.none =>
      { events := banner ++ [Ev.print "Error: APIFY_API_TOKEN not set!"], term := .exited 1 }
  | some t =>
    if t.isEmpty then
      { events := banner ++ [Ev.print "Error: APIFY_API_TOKEN not set!"], term := .exited 1 }
    else
      let pre := banner ++ [Ev.constructClient,
        Ev.print "Configuration", Ev.print "Running the crawler...",
        Ev.remoteCall "actor.call"]
      match o.callRun with
      | .error e =>
          { events := pre ++ [Ev.print ("Error: " ++ e)], term := .exited 1 }
      | .ok run =>
        let dsid := run.defaultDatasetId.getD "None"
        let mid := pre ++ [Ev.print ("Dataset ID: " ++ dsid),
          Ev.remoteCall "dataset.iterate_items"]
        match o.iterItems with
        | .error e => { events := mid, term := .uncaught e }
        | .ok items =>
          let count := items.length
          let counted := mid ++ [Ev.print s!"Pages crawled: {count}"]
          let body :=
            match items with
            | [] => []
            | first :: _ =>
                (items.enum.map fun p => Ev.tableRow (crawlRow (p.1 + 1) p.2))
                ++ samplePrints02 first
          { events := counted ++ body ++
              [Ev.print s!"Crawl Complete! Pages crawled: {count}"],
            term := .normal }

/-!
## 08_amazon_scraper.py, modelled in full
-/

/-- Python `d.get(k, default)` on a modelled dict. -/
def pyDictGet (kvs : List (String × PyVal)) (k : String) (dflt : PyVal) : PyVal :=
  match kvs.find? (fun kv => kv.1 == k) with
  | some kv => kv.2
  | Option.none => dflt

/-- Render a nonnegative count of hundredths as Python's `"%.2f"` output
shape: `hundredthsToString 2999 = "29.99"`, `hundredthsToString 5 = "0.05"`. -/
def hundredthsToString (h : Nat) : String :=
  let ip := h / 100
  let fp := h % 100
  s!"{ip}." ++ (if fp < 10 then "0" ++ toString fp else toString fp)

/-- Python `f"{q:.2f}"` for the nonnegative rationals it is applied to,
exact division rounded to hundredths half-to-even. -/
def fixed2 (q : Rat) : String :=
  hundredthsToString (roundHalfEvenDiv (100 * q.num.toNat) q.den)

/-- One Amazon product item, restricted to the fields
08_amazon_scraper.py reads. -/
structure Product where
  title : Option String
  price : PyVal
  stars : Option PyVal
  rating : Option PyVal
  reviewsCount : Option PyVal
  reviews : Option PyVal
  asin : Option String
  brand : Option String
  urlField : Option String

/-- The product cell of the products table (08_amazon_scraper.py lines
140-142).  The slice reads the title with default `"Unknown"` while the
length test re-reads it with default `""`:

    title = product.get("title", "Unknown")[:32]
    if len(product.get("title", "")) > 32:
        title += "..."
-/
def amazonTitleCell (title : Option String) : String :=
  let t := pySlice (title.getD "Unknown") 32
  if (title.getD "").length > 32 then t ++ "..." else t

/-- The price cell (lines 145-152): a dict price renders
`currency + f"{value:.2f}"` when the value is numeric and the raw value
otherwise; a non-dict price renders `str(price) if price else "N/A"`. -/
def priceCell (price : PyVal) : String :=
  match price with
  | .dict kvs =>
      let priceStr := pyDictGet kvs "value" (pyDictGet kvs "raw" (.str "N/A"))
      let currency := pyStr (pyDictGet kvs "currency" (.str "$"))
      match priceStr with
      | .int n => currency ++ fixed2 (n : Rat)
      | .float q => currency ++ fixed2 q
      | .bool b => currency ++ fixed2 (if b then 1 else 0)
      | other => pyStr other
  | p => if p.truthy then pyStr p else "N/A"

/-- The rating cell (lines 155-160): numeric and non-numeric ratings are
both rendered by `str` (the starred string built there is unused). -/
def ratingCell (rating : PyVal) : String :=
  match rating with
  | .int n => pyStr (.int n)
  | .float q => pyStr (.float q)
  | other => pyStr other

/-- The reviews cell (lines 163-164); the `:,` digit grouping of the
f-string is not reproduced. -/
def reviewsCell (reviews : PyVal) : String := pyStr reviews

/-- One row of the products table (lines 138-166). -/
def productRow (i : Nat) (p : Product) : List String :=
  [toString i,
   amazonTitleCell p.title,
   priceCell p.price,
   ratingCell (p.stars.getD (p.rating.getD (.str "N/A"))),
   reviewsCell (p.reviewsCount.getD (p.reviews.getD (.int 0)))]

/-- The numeric price of a product as collected for the price analysis
(lines 172-180): the dict's `value` entry, or the bare price, kept only
when it passes `isinstance(val, (int, float))` — which Python bools do,
as 0/1. -/
def productPriceVal (p : Product) : Option Rat :=
  match p.price with
  | .dict kvs =>
      match pyDictGet kvs "value" .none with
      | .int n => some (n : Rat)
      | .float q => some q
      | .bool b => some (if b then 1 else 0)
      | _ => Option.none
  | .int n => some (n : Rat)
  | .float q => some q
  | .bool b => some (if b then 1 else 0)
  | _ => Option.none

/-- The price-analysis prints (lines 182-186), skipped when no numeric
price was found. -/
def priceAnalysis08 (prices : List Rat) : List Ev :=
  match prices with
  | [] => []
  | p :: ps =>
      [Ev.print ("Lowest: $" ++ fixed2 (ps.foldl min p)),
       Ev.print ("Highest: $" ++ fixed2 (ps.foldl max p)),
       Ev.print ("Average: $" ++ fixed2 ((ps.foldl (· + ·) p) / ((p :: ps).length : Rat)))]

/-- The sample-product section for the first product (lines 189-235); only
reached when `items` is nonempty.  The prints up to the rating line
(195-207) come first; line 208 then renders
`f"{first.get('reviewsCount', 'N/A'):,}"`, and the `:,` format spec
raises for a value that is not a number — in particular for the default
string `'N/A'` when the key is absent (Python bools format as ints).
The result is the events printed before that line together with the
raised error, if any.  The conditional detail prints after line 208
(availability, Prime, features, URL, images) are abbreviated away. -/
def sampleEvents08 (first : Product) : List Ev × Option String :=
  let pre := [Ev.print ("Title: " ++ first.title.getD "N/A"),
    Ev.print ("ASIN: " ++ first.asin.getD "N/A"),
    Ev.print ("Brand: " ++ first.brand.getD "N/A")]
    ++ (match first.price with
        | .dict kvs =>
            [Ev.print ("Price: " ++ pyStr (pyDictGet kvs "raw" (pyDictGet kvs "value" (.str "N/A"))))]
        | _ => [])
    ++ [Ev.print ("Rating: " ++ ratingCell (first.stars.getD (.str "N/A")) ++ " / 5")]
  match first.reviewsCount.getD (.str "N/A") with
  | .int n => (pre ++ [Ev.print ("Reviews: " ++ toString n)], Option.none)
  | .float q => (pre ++ [Ev.print ("Reviews: " ++ pyStr (.float q))], Option.none)
  | .bool b => (pre ++ [Ev.print ("Reviews: " ++ (if b then "1" else "0"))], Option.none)
  | _ => (pre, some "ValueError: cannot specify a comma with string formatting")

/-- The oracle of 08_amazon_scraper.py: actor call at line 108,
dataset iteration at line 125. -/
abbrev Oracle08 : Type := ScraperOracle Product

/-- src/python-samples/08_amazon_scraper.py `main` (lines 40-262).  Same
shape as script 02: guarded actor call (lines 107-113, exit 1 on failure),
unguarded dataset iteration (line 125), table and sample sections guarded
by `if items:` (lines 129-235), summary always printed (lines 241-262). -/
def script08_main (token : Option String) (o : Oracle08) : Outcome :=
  let banner := [Ev.print "08 - Amazon Product Scraper"]
  match token with
  | Option.none =>
      { events := banner ++ [Ev.print "Error: APIFY_API_TOKEN not set!"], term := .exited 1 }
  | some t =>
    if t.isEmpty then
      { events := banner ++ [Ev.print "Error: APIFY_API_TOKEN not set!"], term := .exited 1 }
    else
      let pre := banner ++ [Ev.constructClient,
        Ev.print "Configuration", Ev.print "Running the scraper...",
        Ev.remoteCall "actor.call"]
      match o.callRun with
      | .error e =>
          { events := pre ++ [Ev.print ("Error details: " ++ e)], term := .exited 1 }
      | .ok run =>
        let dsid := run.defaultDatasetId.getD "None"
        let mid := pre ++ [Ev.print ("Dataset ID: " ++ dsid),
          Ev.remoteCall "dataset.iterate_items"]
        match o.iterItems with
        | .error e => { events := mid, term := .uncaught e }
        | .ok items =>
          let count := items.length
          let counted := mid ++ [Ev.print s!"Products found: {count}"]
          match items with
          | [] =>
              { events := counted ++
                  [Ev.print s!"Amazon Scraping Complete! Products found: {count}"],
                term := .normal }
          | first :: _ =>
              let rows := items.enum.map fun p => Ev.tableRow (productRow (p.1 + 1) p.2)
              let priceEv := priceAnalysis08 (items.filterMap productPriceVal)
              match sampleEvents08 first with
              | (sev, some ex) =>
                  { events := counted ++ rows ++ priceEv ++ sev, term := .uncaught ex }
              | (sev, Option.none) =>
                  { events := counted ++ rows ++ priceEv ++ sev ++
                      [Ev.print s!"Amazon Scraping Complete! Products found: {count}"],
                    term := .normal }

/-!
## Scripts 03-07, the remaining scrapers, modelled in full

The seven scraper scripts (02-08) share one skeleton verbatim: token
guard, client construction, configuration prints, the actor call inside
`try/except` (log and exit 1 on failure), an unguarded dataset iteration,
a count line, a result section guarded by `if items:`, and a closing
summary that prints the item count.  `scraperMain` is that skeleton;
scripts 03-07 instantiate it with their banner, their error-print prefix,
their count and summary lines and their result-section body.  (Scripts 02
and 08 are modelled by `script02_main` / `script08_main` of the same
shape above.)
-/

/-- The scraper skeleton shared by scripts 02-08 (e.g.
src/python-samples/03_web_scraper_custom.py lines 94-260,
04_google_maps_scraper.py lines 39-228, 05_instagram_scraper.py lines
44-236, 06_tiktok_scraper.py lines 53-251, 07_twitter_scraper.py lines
52-256).  The `body` — per-item table and sample sections — is only
rendered when `items` is nonempty; the summary always prints the count.
Extra console lines of some except-blocks (e.g. script 04's input-format
note) are abbreviated into the single error print. -/
def scraperMain {Item : Type} (banner errLine : String)
    (countLine summaryLine : Nat → String) (body : List Item → List Ev)
    (token : Option String) (o : ScraperOracle Item) : Outcome :=
  match token with
  | Option.none =>
      { events := [Ev.print banner, Ev.print "Error: APIFY_API_TOKEN not set!"],
        term := .exited 1 }
  | some t =>
    if t.isEmpty then
      { events := [Ev.print banner, Ev.print "Error: APIFY_API_TOKEN not set!"],
        term := .exited 1 }
    else
      let pre := [Ev.print banner, Ev.constructClient, Ev.print "Configuration",
        Ev.print "Running the scraper...", Ev.remoteCall "actor.call"]
      match o.callRun with
      | .error e => { events := pre ++ [Ev.print (errLine ++ e)], term := .exited 1 }
      | .ok run =>
        let dsid := run.defaultDatasetId.getD "None"
        let mid := pre ++ [Ev.print ("Dataset ID: " ++ dsid),
          Ev.remoteCall "dataset.iterate_items"]
        match o.iterItems with
        | .error e => { events := mid, term := .uncaught e }
        | .ok items =>
          let count := items.length
          { events := mid ++ [Ev.print (countLine count)] ++ body items ++
              [Ev.print (summaryLine count)],
            term := .normal }

/-- One item of the custom web-scraper run, restricted to the fields
03_web_scraper_custom.py reads (lines 206-240); `headings` and
`sampleLinks` are the lists of dicts the page function returns. -/
structure ScrapedPage where
  title : Option String
  headingsCount : Option PyVal
  linksCount : Option PyVal
  imagesCount : Option PyVal
  url : Option String
  headings : List (List (String × PyVal))
  sampleLinks : List (List (String × PyVal))

/-- The title cell of script 03's table (lines 207-209): the slice reads
the title with default `"Unknown"`, the length test re-reads it with
default `""`, limit 37. -/
def webTitleCell (title : Option String) : String :=
  let t := pySlice (title.getD "Unknown") 37
  if (title.getD "").length > 37 then t ++ "..." else t

/-- One row of the scraped-pages table (lines 206-217). -/
def scrapedPageRow (i : Nat) (item : ScrapedPage) : List String :=
  [toString i, webTitleCell item.title,
   pyStr (item.headingsCount.getD (.int 0)),
   pyStr (item.linksCount.getD (.int 0)),
   pyStr (item.imagesCount.getD (.int 0))]

/-- The sample section for the first scraped page (lines 223-240):
URL and title, then the first 5 headings and first 3 links when
present. -/
def samplePrints03 (first : ScrapedPage) : List Ev :=
  [Ev.print ("URL: " ++ first.url.getD "N/A"),
   Ev.print ("Title: " ++ first.title.getD "N/A")]
  ++ (if first.headings.isEmpty then []
      else (first.headings.take 5).map fun h =>
        Ev.print ("[" ++ pyStr (pyDictGet h "level" (.str "?")) ++ "] " ++
          pySlice (pyStr (pyDictGet h "text" (.str ""))) 60))
  ++ (if first.sampleLinks.isEmpty then []
      else (first.sampleLinks.take 3).map fun l =>
        Ev.print (pySlice (pyStr (pyDictGet l "text" (.str "No text"))) 40 ++
          " -> " ++ pySlice (pyStr (pyDictGet l "href" (.str ""))) 40))

/-- The result section of script 03 (lines 197-240), guarded by
`if items:`. -/
def body03 (items : List ScrapedPage) : List Ev :=
  match items with
  | [] => []
  | first :: _ =>
      (items.enum.map fun p => Ev.tableRow (scrapedPageRow (p.1 + 1) p.2))
      ++ samplePrints03 first

/-- src/python-samples/03_web_scraper_custom.py `main` (lines 94-260). -/
def script03_main (token : Option String) (o : ScraperOracle ScrapedPage) : Outcome :=
  scraperMain "03 - Custom Web Scraper with Page Functions" "Full error: "
    (fun n => s!"Pages scraped: {n}")
    (fun n => s!"Scraping Complete! Pages scraped: {n}") body03 token o

/-- One business listing, restricted to the fields
04_google_maps_scraper.py reads (lines 141-206). -/
structure Place where
  title : Option String
  name : Option String
  totalScore : Option PyVal
  rating : Option PyVal
  reviewsCount : Option PyVal
  reviews : Option PyVal
  address : Option String
  street : Option String
  categoryName : Option String
  phone : Option String
  website : Option String

/-- Python `"⭐" * n` (04_google_maps_scraper.py line 149). -/
def starRepeat (n : Nat) : String := String.join (List.replicate n "⭐")

/-- The rating cell (lines 148-152): a numeric rating renders as
`f"{rating} {stars}"` with `int(rating)` stars (truncation equals floor
for the nonnegative ratings it is applied to), anything else as `str`. -/
def ratingCell04 (v : PyVal) : String :=
  match v with
  | .int n => pyStr (.int n) ++ " " ++ starRepeat n.toNat
  | .float q => pyStr (.float q) ++ " " ++ starRepeat (q.num.toNat / q.den)
  | other => pyStr other

/-- One row of the business table (lines 141-154). -/
def placeRow (i : Nat) (p : Place) : List String :=
  [toString i,
   pySlice (p.title.getD (p.name.getD "Unknown")) 22,
   ratingCell04 (p.totalScore.getD (p.rating.getD (.str "N/A"))),
   pyStr (p.reviewsCount.getD (p.reviews.getD (.int 0))),
   pySlice (p.address.getD (p.street.getD "N/A")) 27]

/-- The detailed view of the first place (lines 160-206); the
coordinates, hours and reviews sub-blocks are abbreviated away. -/
def samplePrints04 (first : Place) : List Ev :=
  [Ev.print ("Name: " ++ first.title.getD (first.name.getD "N/A")),
   Ev.print ("Category: " ++ first.categoryName.getD "N/A"),
   Ev.print ("Address: " ++ first.address.getD "N/A"),
   Ev.print ("Phone: " ++ first.phone.getD "N/A"),
   Ev.print ("Website: " ++ first.website.getD "N/A")]

/-- The result section of script 04 (lines 132-206). -/
def body04 (items : List Place) : List Ev :=
  match items with
  | [] => []
  | first :: _ =>
      (items.enum.map fun p => Ev.tableRow (placeRow (p.1 + 1) p.2))
      ++ samplePrints04 first

/-- src/python-samples/04_google_maps_scraper.py `main` (lines 39-228). -/
def script04_main (token : Option String) (o : ScraperOracle Place) : Outcome :=
  scraperMain "04 - Google Maps Scraper" "Error details: "
    (fun n => s!"Businesses found: {n}")
    (fun n => s!"Google Maps Scraping Complete! Businesses found: {n}") body04 token o

/-- Python `sum(v for ... if isinstance(v, int))` over the values of a
field: the non-`int` values are skipped; Python bools are ints and count
as 0/1. -/
def intSum (vals : List PyVal) : Int :=
  (vals.filterMap fun v =>
    match v with
    | .int n => some n
    | .bool b => some (if b then 1 else 0)
    | _ => Option.none).foldl (· + ·) 0

/-- One Instagram post, restricted to the fields
05_instagram_scraper.py reads (lines 146-212). -/
structure InstaPost where
  postType : Option String
  caption : Option String
  likesCount : Option PyVal
  likes : Option PyVal
  commentsCount : Option PyVal
  comments : Option PyVal
  timestampField : Option PyVal
  takenAt : Option PyVal
  url : Option String
  ownerUsername : Option String
  hashtags : List String
  locationName : Option String
  displayUrl : Option String

/-- The caption cell (lines 148-150 and 165): first 32 characters, plus
`"..."` beyond 32, and the placeholder when the result is empty. -/
def captionCell (caption : Option String) : String :=
  let c := caption.getD ""
  let t := pySlice c 32
  let t := if c.length > 32 then t ++ "..." else t
  if t.isEmpty then "No caption" else t

/-- Python `f"{v:,}" if isinstance(v, int) else str(v)` (the digit
grouping of `:,` is not reproduced; bools format as ints). -/
def intGroupCell (v : PyVal) : String :=
  match v with
  | .int n => toString n
  | .bool b => if b then "1" else "0"
  | other => pyStr other

/-- The date cell (lines 156-160): `str(timestamp)[:10]` when the
timestamp is truthy, else `"N/A"`. -/
def dateCell05 (ts : PyVal) : String :=
  if ts.truthy then pySlice (pyStr ts) 10 else "N/A"

/-- One row of the posts table (lines 146-169). -/
def instaRow (i : Nat) (p : InstaPost) : List String :=
  [toString i, p.postType.getD "post", captionCell p.caption,
   intGroupCell (p.likesCount.getD (p.likes.getD (.int 0))),
   intGroupCell (p.commentsCount.getD (p.comments.getD (.int 0))),
   dateCell05 (p.timestampField.getD (p.takenAt.getD (.str "")))]

/-- The likes value of a post as the sums read it (line 175). -/
def likesOf05 (p : InstaPost) : PyVal := p.likesCount.getD (p.likes.getD (.int 0))

/-- The comments value of a post as the sums read it (line 176). -/
def commentsOf05 (p : InstaPost) : PyVal :=
  p.commentsCount.getD (p.comments.getD (.int 0))

/-- The engagement summary (lines 174-181): sums over the `int` values,
average by Python floor division (`//`), `:,` grouping dropped. -/
def aggregates05 (items : List InstaPost) : List Ev :=
  let totalLikes := intSum (items.map likesOf05)
  let totalComments := intSum (items.map commentsOf05)
  let avg := if items.length = 0 then 0 else Int.fdiv totalLikes items.length
  [Ev.print ("Total Likes: " ++ toString totalLikes),
   Ev.print ("Total Comments: " ++ toString totalComments),
   Ev.print ("Avg Likes/Post: " ++ toString avg)]

/-- The sample-post section (lines 184-212); the owner fallback chain and
the location fallback are abbreviated to the primary keys. -/
def samplePrints05 (first : InstaPost) : List Ev :=
  [Ev.print ("Post URL: " ++ first.url.getD "N/A"),
   Ev.print ("Type: " ++ first.postType.getD "post"),
   Ev.print ("Owner: " ++ first.ownerUsername.getD "N/A")]
  ++ (let c := first.caption.getD ""
      if c.isEmpty then []
      else [Ev.print ("Caption: " ++
             (if c.length > 200 then pySlice c 200 ++ "..." else c))])
  ++ (if first.hashtags.isEmpty then []
      else [Ev.print ("Hashtags: " ++
             String.intercalate " " ((first.hashtags.take 10).map (fun h => "#" ++ h)))])
  ++ (match first.locationName with
      | some l => [Ev.print ("Location: " ++ l)]
      | Option.none => [])
  ++ (match first.displayUrl with
      | some m => [Ev.print ("Media URL: " ++ pySlice m 60 ++ "...")]
      | Option.none => [])

/-- The result section of script 05 (lines 136-212). -/
def body05 (items : List InstaPost) : List Ev :=
  match items with
  | [] => []
  | first :: _ =>
      (items.enum.map fun p => Ev.tableRow (instaRow (p.1 + 1) p.2))
      ++ aggregates05 items ++ samplePrints05 first

/-- src/python-samples/05_instagram_scraper.py `main` (lines 44-236). -/
def script05_main (token : Option String) (o : ScraperOracle InstaPost) : Outcome :=
  scraperMain "05 - Instagram Scraper" "Error details: "
    (fun n => s!"Items scraped: {n}")
    (fun n => s!"Instagram Scraping Complete! Posts scraped: {n}") body05 token o

/-- One TikTok video, restricted to the fields
06_tiktok_scraper.py reads (lines 150-227). -/
structure TikTokVideo where
  text : Option String
  desc : Option String
  playCount : Option PyVal
  plays : Option PyVal
  diggCount : Option PyVal
  likes : Option PyVal
  commentCount : Option PyVal
  comments : Option PyVal
  shareCount : Option PyVal
  shares : Option PyVal
  videoId : Option String
  authorMeta : List (String × PyVal)
  webVideoUrl : Option String

/-- The description cell (lines 151-153 and 162): first 27 characters of
`video.get("text", video.get("desc", ""))`, plus `"..."` beyond 27, and
the placeholder when empty. -/
def descCell (v : TikTokVideo) : String :=
  let d := v.text.getD (v.desc.getD "")
  let t := pySlice d 27
  let t := if d.length > 27 then t ++ "..." else t
  if t.isEmpty then "No description" else t

/-- The views value of a video (lines 155 and 173). -/
def viewsOf (v : TikTokVideo) : PyVal := v.playCount.getD (v.plays.getD (.int 0))

/-- The likes value of a video (lines 156 and 174). -/
def likesOf06 (v : TikTokVideo) : PyVal := v.diggCount.getD (v.likes.getD (.int 0))

/-- The comments value of a video (line 157). -/
def commentsOf06 (v : TikTokVideo) : PyVal :=
  v.commentCount.getD (v.comments.getD (.int 0))

/-- The shares value of a video (line 158). -/
def sharesOf (v : TikTokVideo) : PyVal := v.shareCount.getD (v.shares.getD (.int 0))

/-- One row of the videos table (lines 150-167): the four engagement
cells go through `format_number`. -/
def tiktokRow (i : Nat) (v : TikTokVideo) : List String :=
  [toString i, descCell v, format_number (viewsOf v), format_number (likesOf06 v),
   format_number (commentsOf06 v), format_number (sharesOf v)]

/-- The performance summary (lines 172-179): totals over the `int`
values rendered with `format_number`, the engagement rate an
exact-rational `.2f` (0 when there are no views). -/
def aggregates06 (items : List TikTokVideo) : List Ev :=
  let totalViews := intSum (items.map viewsOf)
  let totalLikes := intSum (items.map likesOf06)
  let rate : Rat :=
    if totalViews = 0 then 0 else (totalLikes : Rat) / (totalViews : Rat) * 100
  [Ev.print ("Total Views: " ++ format_number (.int totalViews)),
   Ev.print ("Total Likes: " ++ format_number (.int totalLikes)),
   Ev.print ("Engagement Rate: " ++ fixed2 rate ++ "%")]

/-- The sample-video section (lines 182-227); the author fallback chain,
hashtags, music and duration sub-blocks are abbreviated away. -/
def samplePrints06 (first : TikTokVideo) : List Ev :=
  [Ev.print ("Video ID: " ++ first.videoId.getD "N/A"),
   Ev.print ("Author: @" ++ pyStr (pyDictGet first.authorMeta "name" (.str "N/A")))]
  ++ (if first.authorMeta.isEmpty then []
      else [Ev.print ("Author Followers: " ++
             format_number (pyDictGet first.authorMeta "fans"
               (pyDictGet first.authorMeta "followers" (.int 0))))])
  ++ (let d := first.text.getD (first.desc.getD "")
      if d.isEmpty then []
      else [Ev.print ("Description: " ++
             (if d.length > 200 then pySlice d 200 ++ "..." else d))])
  ++ (match first.webVideoUrl with
      | some u => [Ev.print ("URL: " ++ u)]
      | Option.none => [])

/-- The result section of script 06 (lines 140-227). -/
def body06 (items : List TikTokVideo) : List Ev :=
  match items with
  | [] => []
  | first :: _ =>
      (items.enum.map fun p => Ev.tableRow (tiktokRow (p.1 + 1) p.2))
      ++ aggregates06 items ++ samplePrints06 first

/-- src/python-samples/06_tiktok_scraper.py `main` (lines 53-251). -/
def script06_main (token : Option String) (o : ScraperOracle TikTokVideo) : Outcome :=
  scraperMain "06 - TikTok Scraper" "Error details: "
    (fun n => s!"Videos scraped: {n}")
    (fun n => s!"TikTok Scraping Complete! Videos scraped: {n}") body06 token o

/-- One tweet, restricted to the fields 07_twitter_scraper.py reads
(lines 148-231); `user` is the author dict. -/
structure Tweet where
  user : List (String × PyVal)
  author : Option String
  fullText : Option String
  text : Option String
  favoriteCount : Option PyVal
  likes : Option PyVal
  retweetCount : Option PyVal
  retweets : Option PyVal
  replyCount : Option PyVal
  replies : Option PyVal

/-- The tweet-text cell (lines 154-156 and 166): first 32 characters of
`tweet.get("full_text", tweet.get("text", ""))`, plus `"..."` beyond 32,
and the placeholder when empty. -/
def tweetTextCell (tw : Tweet) : String :=
  let x := tw.fullText.getD (tw.text.getD "")
  let t := pySlice x 32
  let t := if x.length > 32 then t ++ "..." else t
  if t.isEmpty then "No text" else t

/-- The likes value of a tweet (lines 159 and 176). -/
def likesOf07 (t : Tweet) : PyVal := t.favoriteCount.getD (t.likes.getD (.int 0))

/-- The retweets value of a tweet (lines 160 and 177). -/
def retweetsOf (t : Tweet) : PyVal := t.retweetCount.getD (t.retweets.getD (.int 0))

/-- The replies value of a tweet (line 161). -/
def repliesOf (t : Tweet) : PyVal := t.replyCount.getD (t.replies.getD (.int 0))

/-- One row of the tweets table (lines 148-170): the author handle is
sliced to 13 characters, the engagement cells go through
`format_number`. -/
def tweetRow (i : Nat) (tw : Tweet) : List String :=
  let username := pyStr (pyDictGet tw.user "screen_name" (.str (tw.author.getD "Unknown")))
  [toString i, "@" ++ pySlice username 13, tweetTextCell tw,
   format_number (likesOf07 tw), format_number (retweetsOf tw),
   format_number (repliesOf tw)]

/-- The engagement summary (lines 176-182): totals over the `int` values
rendered with `format_number`, average by Python floor division. -/
def aggregates07 (items : List Tweet) : List Ev :=
  let totalLikes := intSum (items.map likesOf07)
  let totalRetweets := intSum (items.map retweetsOf)
  let avg :=
    if items.length = 0 then 0 else Int.fdiv (totalLikes + totalRetweets) items.length
  [Ev.print ("Total Likes: " ++ format_number (.int totalLikes)),
   Ev.print ("Total Retweets: " ++ format_number (.int totalRetweets)),
   Ev.print ("Avg Engagement/Tweet: " ++ format_number (.int avg))]

/-- The sample-tweet section (lines 185-231); the timestamp, URL,
hashtag and mention sub-blocks are abbreviated away. -/
def samplePrints07 (first : Tweet) : List Ev :=
  [Ev.print ("Author: @" ++
     pyStr (pyDictGet first.user "screen_name" (.str (first.author.getD "N/A")))),
   Ev.print ("Name: " ++ pyStr (pyDictGet first.user "name" (.str "N/A"))),
   Ev.print ("Followers: " ++ format_number (pyDictGet first.user "followers_count" (.int 0))),
   Ev.print ("Likes: " ++ format_number (first.favoriteCount.getD (.int 0))),
   Ev.print ("Retweets: " ++ format_number (first.retweetCount.getD (.int 0))),
   Ev.print ("Replies: " ++ format_number (first.replyCount.getD (.int 0)))]
  ++ (let x := first.fullText.getD (first.text.getD "")
      if x.isEmpty then [] else [Ev.print ("Tweet: " ++ x)])

/-- The result section of script 07 (lines 138-231): only the first 15
tweets are tabled (`items[:15]`), the aggregates run over all items. -/
def body07 (items : List Tweet) : List Ev :=
  match items with
  | [] => []
  | first :: _ =>
      ((items.take 15).enum.map fun p => Ev.tableRow (tweetRow (p.1 + 1) p.2))
      ++ aggregates07 items ++ samplePrints07 first

/-- src/python-samples/07_twitter_scraper.py `main` (lines 52-256). -/
def script07_main (token : Option String) (o : ScraperOracle Tweet) : Outcome :=
  scraperMain "07 - Twitter/X Scraper" "Error details: "
    (fun n => s!"Tweets found: {n}")
    (fun n => s!"Twitter Scraping Complete! Tweets found: {n}") body07 token o

/-!
## 09_dataset_operations.py, modelled in full with remote dataset state
-/

/-- The remote dataset storage, dataset id to its ordered items.  Modelled
from the spec: "Dataset: an append-only ordered sequence of JSON records";
pushes append and reads leave the state unchanged. -/
abbrev DsState : Type := List (String × List PyVal)

/-- The items of dataset `id`, when it exists. -/
def dsLookup (st : DsState) (id : String) : Option (List PyVal) :=
  (List.find? (fun e => e.1 == id) st).map (fun e => e.2)

/-- Modelled from the spec: `datasets_client.get_or_create(name=...)`
creates an empty dataset when the id is new and is otherwise a no-op. -/
def dsGetOrCreate (st : DsState) (id : String) : DsState :=
  match List.find? (fun e => e.1 == id) st with
  | some _ => st
  | Option.none => st ++ [(id, [])]

/-- Modelled from the spec: `dataset.push_items(items)` appends. -/
def dsPush (st : DsState) (id : String) (items : List PyVal) : DsState :=
  st.map (fun e => if e.1 == id then (e.1, e.2 ++ items) else e)

/-- The five `sample_items` pushed by 09_dataset_operations.py
(lines 107-148). -/
def sampleItems : List PyVal :=
  [PyVal.dict [("id", .int 1), ("name", .str "Python Programming"),
     ("category", .str "Programming"), ("price", .float (2999/100)),
     ("inStock", .bool true),
     ("tags", .list [.str "python", .str "coding", .str "beginner"])],
   PyVal.dict [("id", .int 2), ("name", .str "Data Science Handbook"),
     ("category", .str "Data Science"), ("price", .float (4999/100)),
     ("inStock", .bool true),
     ("tags", .list [.str "data", .str "ml", .str "statistics"])],
   PyVal.dict [("id", .int 3), ("name", .str "Web Scraping Mastery"),
     ("category", .str "Web Development"), ("price", .float (3499/100)),
     ("inStock", .bool false),
     ("tags", .list [.str "scraping", .str "automation", .str "apify"])],
   PyVal.dict [("id", .int 4), ("name", .str "API Design Patterns"),
     ("category", .str "Programming"), ("price", .float (3999/100)),
     ("inStock", .bool true),
     ("tags", .list [.str "api", .str "rest", .str "design"])],
   PyVal.dict [("id", .int 5), ("name", .str "Machine Learning Basics"),
     ("category", .str "Data Science"), ("price", .float (5499/100)),
     ("inStock", .bool true),
     ("tags", .list [.str "ml", .str "ai", .str "tensorflow"])]]

/-- Metadata of an existing dataset as rendered by Step 1 of
09_dataset_operations.py (lines 67-83). -/
structure DatasetMeta where
  name : Option String
  id : String
  itemCount : Nat
  modifiedAt : String

/-- One row of the recent-datasets table (lines 74-81). -/
def datasetMetaRow (ds : DatasetMeta) : List String :=
  [pySlice (ds.name.getD "[unnamed]") 20,
   pySlice ds.id 12 ++ "...",
   toString ds.itemCount,
   pySlice ds.modifiedAt 10]

/-- The remote calls of 09_dataset_operations.py, in source order.  None of
them is inside a `try/except`.  `newId` is the server-assigned id of the
dataset created in Step 2 (its name carries a timestamp, so it is fresh);
the read results are served from the dataset state, the `Except`s only say
whether each call raises. -/
structure Oracle09 where
  listDatasets : Except String (Nat × List DatasetMeta)
  newId : String
  createResult : Except String Unit
  pushResult : Except String Unit
  listItems1 : Except String Unit
  iterateResult : Except String Unit
  listItems2 : Except String Unit
  listItems3 : Except String Unit
  getInfoResult : Except String Unit

/-- src/python-samples/09_dataset_operations.py `main` (lines 38-279)
threaded over the remote dataset state.  The calls in order:
`datasets_client.list` (line 63), `get_or_create` (line 94), `push_items`
(line 154), `list_items(limit=3)` (line 185), `iterate_items` (line 191),
`list_items(fields=...)` (line 196), `list_items(limit=2)` (line 215),
`dataset.get()` (line 228).  No call is guarded, so the first failure
propagates out of `main`.  The clean-up step (lines 241-251) only prints:
the `dataset.delete()` call is commented out (line 249). -/
def script09_main (token : Option String) (o : Oracle09) (st0 : DsState) :
    Outcome × DsState :=
  let banner := [Ev.print "09 - Dataset Operations"]
  match token with
  | Option.none =>
      ({ events := banner ++ [Ev.print "Error: APIFY_API_TOKEN not set!"],
         term := .exited 1 }, st0)
  | some t =>
    if t.isEmpty then
      ({ events := banner ++ [Ev.print "Error: APIFY_API_TOKEN not set!"],
         term := .exited 1 }, st0)
    else
      let pre := banner ++ [Ev.constructClient, Ev.remoteCall "datasets.list"]
      match o.listDatasets with
      | .error e => ({ events := pre, term := .uncaught e }, st0)
      | .ok (total, metas) =>
        let listed := pre ++ [Ev.print s!"Found {total} datasets in your account"]
          ++ (if metas.isEmpty then []
              else (metas.take 5).map fun ds => Ev.tableRow (datasetMetaRow ds))
        let created := listed ++ [Ev.remoteCall "datasets.get_or_create"]
        match o.createResult with
        | .error e => ({ events := created, term := .uncaught e }, st0)
        | .ok _ =>
          let st1 := dsGetOrCreate st0 o.newId
          let pushed := created ++
            [Ev.print ("Created dataset, ID: " ++ o.newId),
             Ev.remoteCall "dataset.push_items"]
          match o.pushResult with
          | .error e => ({ events := pushed, term := .uncaught e }, st1)
          | .ok _ =>
            let st2 := dsPush st1 o.newId sampleItems
            let afterPush := pushed ++ [Ev.print "Pushed 5 items to dataset"]
              ++ sampleItems.enum.map (fun p =>
                   Ev.tableRow [toString (p.1 + 1)])
              ++ [Ev.remoteCall "dataset.list_items"]
            match o.listItems1 with
            | .error e => ({ events := afterPush, term := .uncaught e }, st2)
            | .ok _ =>
              let nItems := ((dsLookup st2 o.newId).getD []).length
              let read1 := afterPush ++
                [Ev.print s!"Total items: {nItems}",
                 Ev.remoteCall "dataset.iterate_items"]
              match o.iterateResult with
              | .error e => ({ events := read1, term := .uncaught e }, st2)
              | .ok _ =>
                let read2 := read1 ++
                  [Ev.print s!"Iterated over {nItems} items",
                   Ev.remoteCall "dataset.list_items"]
                match o.listItems2 with
                | .error e => ({ events := read2, term := .uncaught e }, st2)
                | .ok _ =>
                  let read3 := read2 ++ [Ev.remoteCall "dataset.list_items"]
                  match o.listItems3 with
                  | .error e => ({ events := read3, term := .uncaught e }, st2)
                  | .ok _ =>
                    let read4 := read3 ++ [Ev.remoteCall "dataset.get"]
                    match o.getInfoResult with
                    | .error e => ({ events := read4, term := .uncaught e }, st2)
                    | .ok _ =>
                      ({ events := read4 ++
                          [Ev.print s!"Item Count: {nItems}",
                           Ev.print "Step 7: Clean Up",
                           Ev.print "Keeping dataset for your reference.",
                           Ev.print "Dataset Operations Complete!"],
                         term := .normal }, st2)

/-!
## 12_scheduled_tasks.py, modelled in full
-/

/-- Metadata of an existing schedule as rendered by Step 1 of
12_scheduled_tasks.py (lines 68-83). -/
structure SchedMeta where
  name : Option String
  cronExpression : Option String
  isEnabled : Bool
  lastRunAt : Option String

/-- One row of the existing-schedules table (lines 75-81). -/
def schedMetaRow (s : SchedMeta) : List String :=
  [pySlice (s.name.getD "Unnamed") 22,
   s.cronExpression.getD "N/A",
   if s.isEnabled then "yes" else "no",
   pySlice (s.lastRunAt.getD "Never") 10]

/-- The remote calls of 12_scheduled_tasks.py: `schedules_client.list`
(line 64, unguarded), `schedules_client.create` (lines 135-151, inside
`try/except`), `schedule.get()` (line 176, unguarded, only when creation
succeeded), `schedule_to_delete.delete()` (line 285, inside `try/except`,
only when creation succeeded). -/
structure Oracle12 where
  listSchedules : Except String (Nat × List SchedMeta)
  createResult : Except String String
  getInfo : Except String Unit
  deleteResult : Except String Unit

/-- src/python-samples/12_scheduled_tasks.py `main` (lines 39-316).  The
demo schedule is created with `is_enabled=False` (line 138); on creation
failure the exception is caught, a note is printed and `schedule_id` is set
to `None` (lines 157-159).  Step 4 fetches the schedule details with an
unguarded `schedule.get()` when `schedule_id` is set.  Step 8 (lines
279-288) deletes the schedule inside `try/except` when `schedule_id` is
set; a failed delete is logged and the script continues to the summary. -/
def script12_main (token : Option String) (o : Oracle12) : Outcome :=
  let banner := [Ev.print "12 - Scheduled Tasks and Webhooks"]
  match token with
  | Option.none =>
      { events := banner ++ [Ev.print "Error: APIFY_API_TOKEN not set!"], term := .exited 1 }
  | some t =>
    if t.isEmpty then
      { events := banner ++ [Ev.print "Error: APIFY_API_TOKEN not set!"], term := .exited 1 }
    else
      let pre := banner ++ [Ev.constructClient, Ev.remoteCall "schedules.list"]
      match o.listSchedules with
      | .error e => { events := pre, term := .uncaught e }
      | .ok (total, metas) =>
        let listed := pre ++ [Ev.print s!"Found {total} schedules in your account"]
          ++ (if metas.isEmpty then [Ev.print "No schedules found"]
              else (metas.take 5).map fun s => Ev.tableRow (schedMetaRow s))
          ++ [Ev.print "Step 2: Understanding Cron Expressions",
              Ev.print "Step 3: Create a Schedule (Demo)",
              Ev.createSchedule false, Ev.remoteCall "schedules.create"]
        match o.createResult with
        | .error e =>
          -- schedule_id = None: Step 4 details and Step 8 delete are skipped
          { events := listed ++
              [Ev.print ("Note: Could not create schedule: " ++ e),
               Ev.print "Step 4: Schedule Operations",
               Ev.print "Step 5: Understanding Webhooks",
               Ev.print "Scheduling & Webhooks Complete!"],
            term := .normal }
        | .ok scheduleId =>
          let created := listed ++
            [Ev.print ("Schedule created! ID: " ++ scheduleId),
             Ev.print "Step 4: Schedule Operations",
             Ev.remoteCall "schedule.get"]
          match o.getInfo with
          | .error e => { events := created, term := .uncaught e }
          | .ok _ =>
            let preDelete := created ++
              [Ev.print "Step 5: Understanding Webhooks",
               Ev.print "Step 8: Clean Up",
               Ev.print "Deleting demo schedule...",
               Ev.remoteCall "schedule.delete"]
            match o.deleteResult with
            | .error e =>
              { events := preDelete ++
                  [Ev.print ("Could not delete: " ++ e),
                   Ev.print "Scheduling & Webhooks Complete!"],
                term := .normal }
            | .ok _ =>
              { events := preDelete ++
                  [Ev.print "Demo schedule deleted",
                   Ev.print "Scheduling & Webhooks Complete!"],
                term := .normal }

/-!
## Shared helper lemmas
-/

theorem pySlice_length (s : String) (n : Nat) :
    (pySlice s n).length = min n s.length := by
  cases s with
  | mk data => simp [pySlice, String.length, String.toList]

theorem pySlice_of_le (s : String) (n : Nat) (h : s.length ≤ n) :
    pySlice s n = s := by
  cases s with
  | mk data =>
    simp only [pySlice, String.toList]
    rw [List.take_of_length_le]
    exact h

/-- On an integer input in the `K` range, `format_number` renders the
half-even-rounded tenths followed by `"K"`. -/
theorem format_number_int_k (n : Int) (h1 : 1000 ≤ n) (h2 : n < 1000000) :
    format_number (.int n) = tenthsToString (kTenths n) ++ "K" := by
  have hlt : ¬ ((1000000 : Rat) ≤ (n : Rat)) := by
    rw [not_le]; exact_mod_cast h2
  have hge : (1000 : Rat) ≤ (n : Rat) := by exact_mod_cast h1
  simp [format_number, formatNumeric, hlt, hge, kTenths]

/-- Up to `n = 999949` the rounded tenths stay below `1000.0`; from
`999951` on they reach it (and `999950` sits exactly on the tie). -/
theorem kTenths_lt (n : Int) (h1 : 1000 ≤ n) (h2 : n ≤ 999949) :
    kTenths n < 10000 := by
  have hm : (n.toNat : Int) = n := Int.toNat_of_nonneg (by omega)
  have hm2 : n.toNat ≤ 999949 := by omega
  unfold kTenths roundHalfEvenDiv
  split_ifs <;> omega

/-!
## Claim C2: format_number at the K/M boundaries
-/

/-- C2, counterexample.  The claim asserts that for every integer
`1000 ≤ n ≤ 999999` the rendered one-decimal prefix before `"K"` is
strictly below `1000`.  At `n = 999999` the source computes
`f"{999999/1_000:.1f}K"`; `999.999` rounded to one decimal is `1000.0`, so
`format_number(999999) = "1000.0K"` — the prefix equals `1000.0`
(`kTenths 999999 = 10000` tenths), refuting the claim at this input. -/
theorem c2_claim_counterexample :
    format_number (PyVal.int 999999) = "1000.0K" ∧ kTenths 999999 = 10000 :=
  ⟨rfl, rfl⟩

/-- C2, amended.  `format_number` abbreviates correctly at the boundary
values `999 ↦ "999"`, `1000 ↦ "1.0K"`, `1000000 ↦ "1.0M"`, and for every
integer `1000 ≤ n ≤ 999949` the result is the one-decimal rounding of
`n / 1000` followed by `"K"` with that prefix strictly below `1000`
(`kTenths n < 10000` tenths).  For `n ≥ 999951` the prefix rounds up to
`1000.0` (see the counterexample); `999950` is an exact rounding tie. -/
theorem c2_claim_amended :
    format_number (.int 999) = "999" ∧
    format_number (.int 1000) = "1.0K" ∧
    format_number (.int 1000000) = "1.0M" ∧
    ∀ n : Int, 1000 ≤ n → n ≤ 999949 →
      format_number (.int n) = tenthsToString (kTenths n) ++ "K" ∧
      kTenths n < 10000 := by
  refine ⟨rfl, rfl, rfl, ?_⟩
  intro n h1 h2
  exact ⟨format_number_int_k n h1 (by omega), kTenths_lt n h1 h2⟩

/-- C2, witness: the amended theorem applied at `n = 500000`. -/
theorem c2_claim_witness :
    format_number (PyVal.int 500000) = "500.0K" ∧ kTenths 500000 < 10000 :=
  c2_claim_amended.2.2.2 500000 (by decide) (by decide)

/-!
## Claim C8: format_number on non-numeric values
-/

/-- C8.  `format_number` is total by construction (it is a Lean function
into `String`); on every value that is neither an `int` nor a `float` —
`None`, strings such as `"1.2M"`, booleans, lists, dicts — it returns
Python `str` of the value unchanged, with no K/M abbreviation applied. -/
theorem c8_claim_nonnumeric_is_str (v : PyVal) (h : v.isNumeric = false) :
    format_number v = pyStr v := by
  cases v <;> simp_all [PyVal.isNumeric, format_number]

/-- C8, witness: the theorem applied at `"1.2M"` and at `None`. -/
theorem c8_claim_witness :
    format_number (PyVal.str "1.2M") = "1.2M" ∧ format_number PyVal.none = "None" :=
  ⟨c8_claim_nonnumeric_is_str (PyVal.str "1.2M") rfl,
   c8_claim_nonnumeric_is_str PyVal.none rfl⟩

/-!
## Claim C7: table-cell truncation widths
-/

/-- C7.  In the website-content-crawler table every URL cell is at most 50
characters and every title cell at most 40: a URL longer than 47
characters renders as its first 47 characters plus `"..."`, a title longer
than 37 as its first 37 plus `"..."`, and in-limit values render
unchanged.  The Amazon table's product cell is at most 35 characters:
first 32 plus `"..."` when the title exceeds 32, unchanged otherwise. -/
theorem c7_claim_truncation :
    (∀ url : String,
       (urlCell url).length ≤ 50 ∧
       (url.length ≤ 47 → urlCell url = url) ∧
       (47 < url.length → urlCell url = pySlice url 47 ++ "...")) ∧
    (∀ title : String,
       (titleCell title).length ≤ 40 ∧
       (title.length ≤ 37 → titleCell title = title) ∧
       (37 < title.length → titleCell title = pySlice title 37 ++ "...")) ∧
    (∀ t : Option String, (amazonTitleCell t).length ≤ 35) ∧
    (∀ s : String, 32 < s.length → amazonTitleCell (some s) = pySlice s 32 ++ "...") ∧
    (∀ s : String, s.length ≤ 32 → amazonTitleCell (some s) = s) := by
  refine ⟨?_, ?_, ?_, ?_, ?_⟩
  · intro url
    refine ⟨?_, ?_, ?_⟩
    · unfold urlCell
      split_ifs with h
      · rw [String.length_append, pySlice_length]
        have : ("..." : String).length = 3 := rfl
        omega
      · omega
    · intro h; simp [urlCell, Nat.not_lt.mpr h]
    · intro h; simp [urlCell, h]
  · intro title
    refine ⟨?_, ?_, ?_⟩
    · unfold titleCell
      split_ifs with h
      · rw [String.length_append, pySlice_length]
        have : ("..." : String).length = 3 := rfl
        omega
      · omega
    · intro h; simp [titleCell, Nat.not_lt.mpr h]
    · intro h; simp [titleCell, h]
  · intro t
    match t with
    | Option.none => decide
    | some s =>
      unfold amazonTitleCell
      simp only [Option.getD_some]
      split_ifs with h
      · rw [String.length_append, pySlice_length]
        have : ("..." : String).length = 3 := rfl
        omega
      · rw [pySlice_length]; omega
  · intro s h
    simp [amazonTitleCell, h]
  · intro s h
    simp [amazonTitleCell, Nat.not_lt.mpr h, pySlice_of_le s 32 h]

/-- C7, witness: the theorem applied to a 58-character URL, an in-limit
title and a 42-character product title. -/
theorem c7_claim_witness :
    urlCell "https://docs.apify.com/academy/web-scraping-for-beginners" =
      pySlice "https://docs.apify.com/academy/web-scraping-for-beginners" 47 ++ "..." ∧
    titleCell "Web Scraping for Beginners" = "Web Scraping for Beginners" ∧
    amazonTitleCell (some "Wireless Earbuds with Active Noise Canceling") =
      pySlice "Wireless Earbuds with Active Noise Canceling" 32 ++ "..." :=
  ⟨(c7_claim_truncation.1 _).2.2 (by decide),
   (c7_claim_truncation.2.1 _).2.1 (by decide),
   c7_claim_truncation.2.2.2.1 _ (by decide)⟩

/-!
## Claim C3: the bounded status-polling loop
-/

/-- The number of polls never exceeds the fuel. -/
theorem pollFrom_count_le (get : Nat → String) :
    ∀ fuel elapsed, (pollFrom get elapsed fuel).1 ≤ fuel := by
  intro fuel
  induction fuel with
  | zero => intro e; simp [pollFrom]
  | succ f ih =>
    intro e
    simp only [pollFrom]
    split_ifs with h1 h2
    · simp
    · have := ih (e + poll_interval)
      simp only []
      omega
    · simp

/-- When no reported status is terminal, the loop runs to its ceiling:
it polls once per remaining interval and never breaks early. -/
theorem pollFrom_nonterminal (get : Nat → String)
    (hnt : ∀ k, terminalStatuses.contains (get k) = false) :
    ∀ fuel elapsed, elapsed + poll_interval * fuel ≤ max_wait →
      pollFrom get elapsed fuel = (fuel, false) := by
  intro fuel
  induction fuel with
  | zero => intro e _; simp [pollFrom]
  | succ f ih =>
    intro e he
    have hp : poll_interval = 2 := rfl
    have hw : max_wait = 60 := rfl
    rw [hp, hw] at he
    have hlt : e < max_wait := by rw [hw]; omega
    have hrec := ih (e + poll_interval) (by rw [hp, hw]; omega)
    have hmem : get e ∉ terminalStatuses := by simpa using hnt e
    simp [pollFrom, hlt, hmem, hrec]

/-- The loop breaks early exactly when some status it polls is terminal. -/
theorem pollFrom_broke_iff (get : Nat → String) :
    ∀ fuel elapsed, elapsed + poll_interval * fuel ≤ max_wait →
      ((pollFrom get elapsed fuel).2 = true ↔
        ∃ k, k < fuel ∧
          terminalStatuses.contains (get (elapsed + poll_interval * k)) = true) := by
  intro fuel
  induction fuel with
  | zero => intro e _; simp [pollFrom]
  | succ f ih =>
    intro e he
    have hp : poll_interval = 2 := rfl
    have hw : max_wait = 60 := rfl
    rw [hp, hw] at he
    simp only [pollFrom]
    split_ifs with h1 h2
    · simp only [true_iff]
      exact ⟨0, by omega, by simpa using h2⟩
    · simp only []
      rw [ih (e + poll_interval) (by rw [hp, hw]; omega)]
      constructor
      · rintro ⟨k, hk, hterm⟩
        refine ⟨k + 1, by omega, ?_⟩
        have harg : e + poll_interval * (k + 1) = e + poll_interval + poll_interval * k := by
          ring
        rw [harg]; exact hterm
      · rintro ⟨k, hk, hterm⟩
        match k with
        | 0 =>
          exfalso; apply h2; simpa using hterm
        | k + 1 =>
          refine ⟨k, by omega, ?_⟩
          have harg : e + poll_interval + poll_interval * k = e + poll_interval * (k + 1) := by
            ring
          rw [harg]; exact hterm
    · exfalso
      rw [hw] at h1
      omega

/-- C3.  The status-polling loop of 11_run_management.py polls at the
fixed 2-second interval `poll_interval`.  It makes at most 30 polls, so
the accumulated waiting (`poll_interval` seconds per poll) never exceeds
`max_wait = 60` seconds; when no reported status is ever terminal the loop
runs to its ceiling (exactly 30 polls, no early break); and it breaks
early exactly when some polled status is one of SUCCEEDED, FAILED,
ABORTED, TIMED-OUT. -/
theorem c3_claim_poll_loop :
    (∀ get : Nat → String, (pollRun get).1 ≤ 30) ∧
    (∀ get : Nat → String, poll_interval * (pollRun get).1 ≤ max_wait) ∧
    (∀ get : Nat → String,
      (∀ k, terminalStatuses.contains (get k) = false) → pollRun get = (30, false)) ∧
    (∀ get : Nat → String, ((pollRun get).2 = true ↔
      ∃ k, k < 30 ∧ terminalStatuses.contains (get (poll_interval * k)) = true)) := by
  have h30 : max_wait / poll_interval = 30 := rfl
  refine ⟨?_, ?_, ?_, ?_⟩
  · intro get
    unfold pollRun
    rw [h30]
    exact pollFrom_count_le get 30 0
  · intro get
    have hc : (pollRun get).1 ≤ 30 := by
      unfold pollRun; rw [h30]; exact pollFrom_count_le get 30 0
    have hp : poll_interval = 2 := rfl
    have hw : max_wait = 60 := rfl
    rw [hp, hw]
    omega
  · intro get hnt
    unfold pollRun
    rw [h30]
    exact pollFrom_nonterminal get hnt 30 0 (by decide)
  · intro get
    unfold pollRun
    rw [h30]
    have h := pollFrom_broke_iff get 30 0 (by decide)
    simpa using h

/-- C3, witness: a run that always reports `RUNNING` is polled exactly 30
times and the loop never breaks early. -/
theorem c3_claim_witness : pollRun (fun _ => "RUNNING") = (30, false) :=
  c3_claim_poll_loop.2.2.1 (fun _ => "RUNNING") (fun _ => rfl)

/-!
## Claim C6: key-value store round-trips
-/

/-- Looking a key up after filtering it out finds nothing. -/
theorem find?_filter_ne_none (st : List KVRecord) (k : String) :
    List.find? (fun r => r.key == k) (List.filter (fun r => r.key != k) st) =
      Option.none := by
  induction st with
  | nil => rfl
  | cons r st ih =>
    by_cases h : r.key = k
    · simp [List.filter_cons, h, ih]
    · simp [List.filter_cons, h, ih]

/-- Filtering out one key does not change what another key finds. -/
theorem find?_filter_ne_frame (st : List KVRecord) (k j : String) (h : j ≠ k) :
    List.find? (fun r => r.key == j) (List.filter (fun r => r.key != k) st) =
      List.find? (fun r => r.key == j) st := by
  induction st with
  | nil => rfl
  | cons r st ih =>
    rw [List.filter_cons]
    by_cases hk : r.key = k
    · have hj : (r.key == j) = false := by
        rw [hk]; exact beq_eq_false_iff_ne.mpr (Ne.symm h)
      have hfk : (r.key != k) = false := by simp [hk]
      rw [hfk]
      simp only [Bool.false_eq_true, if_false]
      rw [ih, List.find?_cons, hj]
    · have hfk : (r.key != k) = true := by simp [hk]
      rw [hfk]
      simp only [if_true]
      rw [List.find?_cons, List.find?_cons]
      cases hj : (r.key == j) <;> simp [ih]

/-- C6.  The key-value store operations round-trip as
10_key_value_store.py relies on: after `set_record(k, v)` a `get_record(k)`
returns a record whose value is `v`; the latest of two writes to the same
key wins; after `delete_record(k)` a `get_record(k)` returns `None`; and a
set or delete on key `k` leaves every other key's lookup unchanged. -/
theorem c6_claim_kv_roundtrip :
    (∀ (st : KVStore) k v ct,
      get_record (set_record st k v ct) k = some ⟨k, v, ct⟩) ∧
    (∀ (st : KVStore) k v ct w dt,
      get_record (set_record (set_record st k v ct) k w dt) k = some ⟨k, w, dt⟩) ∧
    (∀ (st : KVStore) k, get_record (delete_record st k) k = Option.none) ∧
    (∀ (st : KVStore) k v ct j, j ≠ k →
      get_record (set_record st k v ct) j = get_record st j) ∧
    (∀ (st : KVStore) k j, j ≠ k →
      get_record (delete_record st k) j = get_record st j) := by
  refine ⟨?_, ?_, ?_, ?_, ?_⟩
  · intro st k v ct; simp [get_record, set_record]
  · intro st k v ct w dt; simp [get_record, set_record]
  · intro st k; exact find?_filter_ne_none st k
  · intro st k v ct j h
    have hb : (k == j) = false := beq_eq_false_iff_ne.mpr (Ne.symm h)
    simp [get_record, set_record, List.find?_cons, hb]
  · intro st k j h; exact find?_filter_ne_frame st k j h

/-- C6, witness: the frame conjuncts applied to the keys of script 10
(`"status"` written then deleted, `"config"` untouched). -/
theorem c6_claim_witness :
    get_record (set_record [] "status" (.str "active") (some "text/plain"))
        "config" = get_record [] "config" ∧
    get_record (delete_record
        (set_record [] "status" (.str "active") (some "text/plain")) "status")
        "config" =
      get_record (set_record [] "status" (.str "active") (some "text/plain"))
        "config" :=
  ⟨c6_claim_kv_roundtrip.2.2.2.1 [] "status" (.str "active") (some "text/plain")
      "config" (by decide),
   c6_claim_kv_roundtrip.2.2.2.2
      (set_record [] "status" (.str "active") (some "text/plain")) "status"
      "config" (by decide)⟩

/-!
## Claim C1: the token guard of every script
-/

/-- A run that failed fast on the missing credential: the process exited
with status 1, the only events are console prints — in particular the
`ApifyClient` was never constructed and no remote call was attempted —
and the error message was among the prints. -/
def failsFastWithoutToken (out : Outcome) (errMsg : String) : Prop :=
  out.term = Term.exited 1 ∧ out.events.all Ev.isPrint = true ∧
    Ev.print errMsg ∈ out.events

/-- C1.  For every one of the twelve scripts, when `APIFY_API_TOKEN` is
unset (`os.environ.get` returns `None`) the script prints its error
message and exits with status 1 before the `ApifyClient` is constructed
and before any network call is attempted — whatever the rest of the script
(`rest`), the remote responses (the oracle), and, for script 09, the
remote dataset state (which is left untouched). -/
theorem c1_claim_token_guard :
    (∀ rest, failsFastWithoutToken (script01_main Option.none rest)
      "Error: APIFY_API_TOKEN environment variable not set!") ∧
    (∀ o, failsFastWithoutToken (script02_main Option.none o)
      "Error: APIFY_API_TOKEN not set!") ∧
    (∀ o, failsFastWithoutToken (script03_main Option.none o)
      "Error: APIFY_API_TOKEN not set!") ∧
    (∀ o, failsFastWithoutToken (script04_main Option.none o)
      "Error: APIFY_API_TOKEN not set!") ∧
    (∀ o, failsFastWithoutToken (script05_main Option.none o)
      "Error: APIFY_API_TOKEN not set!") ∧
    (∀ o, failsFastWithoutToken (script06_main Option.none o)
      "Error: APIFY_API_TOKEN not set!") ∧
    (∀ o, failsFastWithoutToken (script07_main Option.none o)
      "Error: APIFY_API_TOKEN not set!") ∧
    (∀ o, failsFastWithoutToken (script08_main Option.none o)
      "Error: APIFY_API_TOKEN not set!") ∧
    (∀ o st0, failsFastWithoutToken (script09_main Option.none o st0).1
      "Error: APIFY_API_TOKEN not set!" ∧
      (script09_main Option.none o st0).2 = st0) ∧
    (∀ rest, failsFastWithoutToken (script10_main Option.none rest)
      "Error: APIFY_API_TOKEN not set!") ∧
    (∀ rest, failsFastWithoutToken (script11_main Option.none rest)
      "Error: APIFY_API_TOKEN not set!") ∧
    (∀ o, failsFastWithoutToken (script12_main Option.none o)
      "Error: APIFY_API_TOKEN not set!") :=
  ⟨fun _ => by simp [failsFastWithoutToken, Ev.isPrint, script01_main, scriptEntry],
   fun _ => by simp [failsFastWithoutToken, Ev.isPrint, script02_main],
   fun _ => by simp [failsFastWithoutToken, Ev.isPrint, script03_main, scraperMain],
   fun _ => by simp [failsFastWithoutToken, Ev.isPrint, script04_main, scraperMain],
   fun _ => by simp [failsFastWithoutToken, Ev.isPrint, script05_main, scraperMain],
   fun _ => by simp [failsFastWithoutToken, Ev.isPrint, script06_main, scraperMain],
   fun _ => by simp [failsFastWithoutToken, Ev.isPrint, script07_main, scraperMain],
   fun _ => by simp [failsFastWithoutToken, Ev.isPrint, script08_main],
   fun _ _ => ⟨by simp [failsFastWithoutToken, Ev.isPrint, script09_main], rfl⟩,
   fun _ => by simp [failsFastWithoutToken, Ev.isPrint, script10_main, scriptEntry],
   fun _ => by simp [failsFastWithoutToken, Ev.isPrint, script11_main, scriptEntry],
   fun _ => by simp [failsFastWithoutToken, Ev.isPrint, script12_main]⟩

/-!
## Claim C5: empty result sets render without raising
-/

/-- C5.  In every result-rendering script (the seven scrapers 02-08), a
run whose dataset yields zero items still completes normally, and its
whole event trace is pinned: banner, client construction, configuration
prints, the actor call, the dataset-id line, the dataset iteration, the
count line reporting 0, and the closing summary still printing an item
count of 0 — nothing else.  In particular no table row is rendered and
the sample-content (and aggregate) sections are skipped entirely, all of
them being guarded by `if items:`. -/
theorem c5_claim_empty_render :
    ∀ (tk : String) (run : RunInfo), tk.isEmpty = false →
      (script02_main (some tk) ⟨.ok run, .ok []⟩ =
        { events := [Ev.print "02 - Website Content Crawler", Ev.constructClient,
            Ev.print "Configuration", Ev.print "Running the crawler...",
            Ev.remoteCall "actor.call",
            Ev.print ("Dataset ID: " ++ run.defaultDatasetId.getD "None"),
            Ev.remoteCall "dataset.iterate_items",
            Ev.print "Pages crawled: 0",
            Ev.print "Crawl Complete! Pages crawled: 0"],
          term := Term.normal }) ∧
      (script03_main (some tk) ⟨.ok run, .ok []⟩ =
        { events := [Ev.print "03 - Custom Web Scraper with Page Functions",
            Ev.constructClient, Ev.print "Configuration",
            Ev.print "Running the scraper...", Ev.remoteCall "actor.call",
            Ev.print ("Dataset ID: " ++ run.defaultDatasetId.getD "None"),
            Ev.remoteCall "dataset.iterate_items",
            Ev.print "Pages scraped: 0",
            Ev.print "Scraping Complete! Pages scraped: 0"],
          term := Term.normal }) ∧
      (script04_main (some tk) ⟨.ok run, .ok []⟩ =
        { events := [Ev.print "04 - Google Maps Scraper", Ev.constructClient,
            Ev.print "Configuration", Ev.print "Running the scraper...",
            Ev.remoteCall "actor.call",
            Ev.print ("Dataset ID: " ++ run.defaultDatasetId.getD "None"),
            Ev.remoteCall "dataset.iterate_items",
            Ev.print "Businesses found: 0",
            Ev.print "Google Maps Scraping Complete! Businesses found: 0"],
          term := Term.normal }) ∧
      (script05_main (some tk) ⟨.ok run, .ok []⟩ =
        { events := [Ev.print "05 - Instagram Scraper", Ev.constructClient,
            Ev.print "Configuration", Ev.print "Running the scraper...",
            Ev.remoteCall "actor.call",
            Ev.print ("Dataset ID: " ++ run.defaultDatasetId.getD "None"),
            Ev.remoteCall "dataset.iterate_items",
            Ev.print "Items scraped: 0",
            Ev.print "Instagram Scraping Complete! Posts scraped: 0"],
          term := Term.normal }) ∧
      (script06_main (some tk) ⟨.ok run, .ok []⟩ =
        { events := [Ev.print "06 - TikTok Scraper", Ev.constructClient,
            Ev.print "Configuration", Ev.print "Running the scraper...",
            Ev.remoteCall "actor.call",
            Ev.print ("Dataset ID: " ++ run.defaultDatasetId.getD "None"),
            Ev.remoteCall "dataset.iterate_items",
            Ev.print "Videos scraped: 0",
            Ev.print "TikTok Scraping Complete! Videos scraped: 0"],
          term := Term.normal }) ∧
      (script07_main (some tk) ⟨.ok run, .ok []⟩ =
        { events := [Ev.print "07 - Twitter/X Scraper", Ev.constructClient,
            Ev.print "Configuration", Ev.print "Running the scraper...",
            Ev.remoteCall "actor.call",
            Ev.print ("Dataset ID: " ++ run.defaultDatasetId.getD "None"),
            Ev.remoteCall "dataset.iterate_items",
            Ev.print "Tweets found: 0",
            Ev.print "Twitter Scraping Complete! Tweets found: 0"],
          term := Term.normal }) ∧
      (script08_main (some tk) ⟨.ok run, .ok []⟩ =
        { events := [Ev.print "08 - Amazon Product Scraper", Ev.constructClient,
            Ev.print "Configuration", Ev.print "Running the scraper...",
            Ev.remoteCall "actor.call",
            Ev.print ("Dataset ID: " ++ run.defaultDatasetId.getD "None"),
            Ev.remoteCall "dataset.iterate_items",
            Ev.print "Products found: 0",
            Ev.print "Amazon Scraping Complete! Products found: 0"],
          term := Term.normal }) := by
  intro tk run h
  refine ⟨?_, ?_, ?_, ?_, ?_, ?_, ?_⟩
  · simp only [script02_main, h, Bool.false_eq_true, if_false]
    rfl
  · simp only [script03_main, scraperMain, h, Bool.false_eq_true, if_false]
    rfl
  · simp only [script04_main, scraperMain, h, Bool.false_eq_true, if_false]
    rfl
  · simp only [script05_main, scraperMain, h, Bool.false_eq_true, if_false]
    rfl
  · simp only [script06_main, scraperMain, h, Bool.false_eq_true, if_false]
    rfl
  · simp only [script07_main, scraperMain, h, Bool.false_eq_true, if_false]
    rfl
  · simp only [script08_main, h, Bool.false_eq_true, if_false]
    rfl

/-- C5, witness: the theorem applied at a concrete token and run; two of
the pinned outcomes projected to their termination. -/
theorem c5_claim_witness :
    (script02_main (some "tok") ⟨.ok ⟨some "ds1"⟩, .ok []⟩).term = Term.normal ∧
    (script07_main (some "tok") ⟨.ok ⟨some "ds1"⟩, .ok []⟩).term = Term.normal ∧
    (script08_main (some "tok") ⟨.ok ⟨some "ds2"⟩, .ok []⟩).term = Term.normal := by
  have h1 := c5_claim_empty_render "tok" ⟨some "ds1"⟩ rfl
  have h2 := c5_claim_empty_render "tok" ⟨some "ds2"⟩ rfl
  refine ⟨?_, ?_, ?_⟩
  · rw [h1.1]
  · rw [h1.2.2.2.2.2.1]
  · rw [h2.2.2.2.2.2.2]

/-!
## Claims C9 and C4: dataset-state and trace lemmas
-/

/-- Creating a dataset that was absent makes it exist and empty. -/
theorem dsLookup_getOrCreate_self (st : DsState) (id : String)
    (h : dsLookup st id = Option.none) :
    dsLookup (dsGetOrCreate st id) id = some [] := by
  unfold dsLookup at h ⊢
  unfold dsGetOrCreate
  cases hf : List.find? (fun e => e.1 == id) st with
  | some p => rw [hf] at h; simp at h
  | none =>
    simp only [hf]
    rw [List.find?_append]
    rw [hf]
    simp

/-- Creating one dataset does not change any other dataset. -/
theorem dsLookup_getOrCreate_frame (st : DsState) (id j : String) (h : j ≠ id) :
    dsLookup (dsGetOrCreate st id) j = dsLookup st j := by
  unfold dsLookup dsGetOrCreate
  cases hf : List.find? (fun e => e.1 == id) st with
  | some p => rfl
  | none =>
    rw [List.find?_append]
    have hone : List.find? (fun e => e.1 == j) [(id, ([] : List PyVal))] = Option.none := by
      simp [List.find?_cons, beq_eq_false_iff_ne.mpr (Ne.symm h)]
    rw [hone]
    cases List.find? (fun e => e.1 == j) st <;> rfl

/-- Pushing appends to the pushed dataset. -/
theorem dsLookup_push_self (st : DsState) (id : String) (items : List PyVal) :
    dsLookup (dsPush st id items) id = (dsLookup st id).map (fun l => l ++ items) := by
  induction st with
  | nil => rfl
  | cons e st ih =>
    by_cases he : e.1 = id
    · have hmap : dsPush (e :: st) id items = (e.1, e.2 ++ items) :: dsPush st id items := by
        simp [dsPush, he]
      have hb : (e.1 == id) = true := by simpa using he
      rw [hmap]
      unfold dsLookup
      simp [List.find?_cons, hb]
    · have hmap : dsPush (e :: st) id items = e :: dsPush st id items := by
        simp [dsPush, he]
      have hb : (e.1 == id) = false := beq_eq_false_iff_ne.mpr he
      rw [hmap]
      unfold dsLookup
      simp only [List.find?_cons, hb]
      exact ih

/-- Pushing to one dataset does not change any other dataset. -/
theorem dsLookup_push_frame (st : DsState) (id j : String) (items : List PyVal)
    (h : j ≠ id) :
    dsLookup (dsPush st id items) j = dsLookup st j := by
  induction st with
  | nil => rfl
  | cons e st ih =>
    by_cases he : e.1 = id
    · have hmap : dsPush (e :: st) id items = (e.1, e.2 ++ items) :: dsPush st id items := by
        simp [dsPush, he]
      have hb : (e.1 == j) = false := by
        rw [he]; exact beq_eq_false_iff_ne.mpr (Ne.symm h)
      rw [hmap]
      unfold dsLookup
      simp only [List.find?_cons, hb]
      exact ih
    · have hmap : dsPush (e :: st) id items = e :: dsPush st id items := by
        simp [dsPush, he]
      rw [hmap]
      unfold dsLookup
      cases hb : (e.1 == j) with
      | true => simp only [List.find?_cons, hb]
      | false =>
        simp only [List.find?_cons, hb]
        exact ih

@[simp] theorem remoteTrace_nil : remoteTrace [] = [] := rfl

@[simp] theorem remoteTrace_append (a b : List Ev) :
    remoteTrace (a ++ b) = remoteTrace a ++ remoteTrace b := by
  simp [remoteTrace]

@[simp] theorem remoteTrace_cons_print (s : String) (l : List Ev) :
    remoteTrace (Ev.print s :: l) = remoteTrace l := rfl

@[simp] theorem remoteTrace_cons_client (l : List Ev) :
    remoteTrace (Ev.constructClient :: l) = remoteTrace l := rfl

@[simp] theorem remoteTrace_cons_row (cells : List String) (l : List Ev) :
    remoteTrace (Ev.tableRow cells :: l) = remoteTrace l := rfl

@[simp] theorem remoteTrace_cons_create (b : Bool) (l : List Ev) :
    remoteTrace (Ev.createSchedule b :: l) = remoteTrace l := rfl

@[simp] theorem remoteTrace_cons_remote (n : String) (l : List Ev) :
    remoteTrace (Ev.remoteCall n :: l) = n :: remoteTrace l := rfl

@[simp] theorem remoteTrace_map_row {α : Type} (f : α → List String) (l : List α) :
    remoteTrace (l.map (fun x => Ev.tableRow (f x))) = [] := by
  induction l with
  | nil => rfl
  | cons a l ih =>
    rw [List.map_cons, remoteTrace_cons_row]
    exact ih

@[simp] theorem remoteTrace_take_row {α : Type} (n : Nat) (f : α → List String)
    (l : List α) :
    remoteTrace (List.take n (List.map (fun x => Ev.tableRow (f x)) l)) = [] := by
  induction l generalizing n with
  | nil => simp [remoteTrace]
  | cons a l ih =>
    cases n with
    | zero => rfl
    | succ m =>
      rw [List.map_cons, List.take_succ_cons, remoteTrace_cons_row]
      exact ih m

@[simp] theorem remoteTrace_ite (c : Prop) [Decidable c] (a b : List Ev) :
    remoteTrace (if c then a else b) = if c then remoteTrace a else remoteTrace b := by
  split <;> rfl

/-- C9.  The dataset-operations script never deletes the dataset it
creates: no execution path — whatever the token, the remote responses and
the prior remote state — ever issues a `dataset.delete` call (the call at
line 249 of 09_dataset_operations.py is commented out), and on every path
that reaches the clean-up step (the run ending normally) the fresh named
dataset holds exactly the 5 pushed sample items and every other dataset is
unchanged when the script exits. -/
theorem c9_claim_no_delete :
    (∀ token o st0,
      "dataset.delete" ∉ remoteTrace (script09_main token o st0).1.events) ∧
    (∀ (tk : String) (o : Oracle09) (st0 : DsState), tk.isEmpty = false →
      dsLookup st0 o.newId = Option.none →
      (script09_main (some tk) o st0).1.term = Term.normal →
      dsLookup (script09_main (some tk) o st0).2 o.newId = some sampleItems ∧
      (∀ j, j ≠ o.newId →
        dsLookup (script09_main (some tk) o st0).2 j = dsLookup st0 j)) := by
  constructor
  · intro token o st0
    obtain ⟨ld, nid, cr, pr, l1, it, l2, l3, gi⟩ := o
    match token with
    | Option.none => simp [script09_main]
    | some t =>
      by_cases htk : t.isEmpty
      · simp [script09_main, htk]
      · simp only [script09_main, htk, Bool.false_eq_true, if_false]
        rcases ld with e | ⟨total, metas⟩
        · simp
        rcases cr with e2 | u2
        · simp
        rcases pr with e3 | u3
        · simp
        rcases l1 with e4 | u4
        · simp
        rcases it with e5 | u5
        · simp
        rcases l2 with e6 | u6
        · simp
        rcases l3 with e7 | u7
        · simp
        rcases gi with e8 | u8
        · simp
        simp
  · intro tk o st0 htk hnone hterm
    obtain ⟨ld, nid, cr, pr, l1, it, l2, l3, gi⟩ := o
    simp only at hnone ⊢
    simp only [script09_main, htk, Bool.false_eq_true, if_false] at hterm ⊢
    rcases ld with e | ⟨total, metas⟩
    · simp at hterm
    rcases cr with e2 | u2
    · simp at hterm
    rcases pr with e3 | u3
    · simp at hterm
    rcases l1 with e4 | u4
    · simp at hterm
    rcases it with e5 | u5
    · simp at hterm
    rcases l2 with e6 | u6
    · simp at hterm
    rcases l3 with e7 | u7
    · simp at hterm
    rcases gi with e8 | u8
    · simp at hterm
    dsimp only
    constructor
    · rw [dsLookup_push_self, dsLookup_getOrCreate_self st0 nid hnone]
      rfl
    · intro j hj
      rw [dsLookup_push_frame _ _ _ _ hj, dsLookup_getOrCreate_frame _ _ _ hj]

/-- C9, witness: a fully successful run against an empty remote state
leaves exactly the five sample items in the fresh dataset. -/
theorem c9_claim_witness :
    dsLookup (script09_main (some "tok")
        ⟨.ok (0, []), "ds-new", .ok (), .ok (), .ok (), .ok (), .ok (), .ok (), .ok ()⟩
        []).2 "ds-new" = some sampleItems :=
  (c9_claim_no_delete.2 "tok"
      ⟨.ok (0, []), "ds-new", .ok (), .ok (), .ok (), .ok (), .ok (), .ok (), .ok ()⟩
      [] rfl rfl rfl).1

@[simp] theorem remoteTrace_samplePrints02 (first : CrawlItem) :
    remoteTrace (samplePrints02 first) = [] := by
  simp [samplePrints02]

/-- C4, counterexample.  The claim asserts that in every script every
failing remote call is caught locally and no exception propagates out
uncaught.  In 09_dataset_operations.py the very first remote call,
`datasets_client.list(limit=5)` (line 63), sits outside any `try/except`:
when it raises, the exception leaves `main` uncaught — the modelled run
terminates as `uncaught`, after that single remote call. -/
theorem c4_claim_counterexample :
    (script09_main (some "tok")
        ⟨.error "network down", "ds-new", .ok (), .ok (), .ok (), .ok (), .ok (), .ok (), .ok ()⟩
        []).1.term = Term.uncaught "network down" ∧
    remoteTrace (script09_main (some "tok")
        ⟨.error "network down", "ds-new", .ok (), .ok (), .ok (), .ok (), .ok (), .ok (), .ok ()⟩
        []).1.events = ["datasets.list"] := ⟨rfl, rfl⟩

@[simp] theorem remoteTrace_map_print {α : Type} (f : α → String) (l : List α) :
    remoteTrace (l.map (fun x => Ev.print (f x))) = [] := by
  induction l with
  | nil => rfl
  | cons a l ih =>
    rw [List.map_cons, remoteTrace_cons_print]
    exact ih

@[simp] theorem remoteTrace_take_print {α : Type} (n : Nat) (f : α → String)
    (l : List α) :
    remoteTrace (List.take n (List.map (fun x => Ev.print (f x)) l)) = [] := by
  induction l generalizing n with
  | nil => simp [remoteTrace]
  | cons a l ih =>
    cases n with
    | zero => rfl
    | succ m =>
      rw [List.map_cons, List.take_succ_cons, remoteTrace_cons_print]
      exact ih m

@[simp] theorem remoteTrace_priceAnalysis08 (prices : List Rat) :
    remoteTrace (priceAnalysis08 prices) = [] := by
  cases prices <;> rfl

@[simp] theorem remoteTrace_sampleEvents08_fst (first : Product) :
    remoteTrace (sampleEvents08 first).1 = [] := by
  unfold sampleEvents08
  cases first.reviewsCount.getD (.str "N/A") <;> cases first.price <;> simp

@[simp] theorem remoteTrace_body03 (items : List ScrapedPage) :
    remoteTrace (body03 items) = [] := by
  cases items with
  | nil => rfl
  | cons first rest => simp [body03, samplePrints03]

@[simp] theorem remoteTrace_body04 (items : List Place) :
    remoteTrace (body04 items) = [] := by
  cases items with
  | nil => rfl
  | cons first rest => simp [body04, samplePrints04]

@[simp] theorem remoteTrace_body05 (items : List InstaPost) :
    remoteTrace (body05 items) = [] := by
  cases items with
  | nil => rfl
  | cons first rest =>
    cases hl : first.locationName <;> cases hd : first.displayUrl <;>
      simp [body05, aggregates05, samplePrints05, hl, hd]

@[simp] theorem remoteTrace_body06 (items : List TikTokVideo) :
    remoteTrace (body06 items) = [] := by
  cases items with
  | nil => rfl
  | cons first rest =>
    cases hw : first.webVideoUrl <;>
      simp [body06, aggregates06, samplePrints06, hw]

@[simp] theorem remoteTrace_body07 (items : List Tweet) :
    remoteTrace (body07 items) = [] := by
  cases items with
  | nil => rfl
  | cons first rest => simp [body07, aggregates07, samplePrints07]

/-- A scraper script whose actor-invocation call is guarded by the
`try/except` of its source: when the call raises, the script logs the
error (with the script's own prefix) and exits 1 having made exactly that
one remote call; when the call succeeds and the following unguarded
dataset iteration raises, the exception propagates out of `main` with
exactly those two remote calls made; and on every run whatsoever the
actor call is issued at most once — a failing call is never retried. -/
def guardedScraper {Item : Type} (main : Option String → ScraperOracle Item → Outcome)
    (errPrefix : String) : Prop :=
  (∀ (tk : String) (o : ScraperOracle Item) (e : String),
    tk.isEmpty = false → o.callRun = .error e →
    (main (some tk) o).term = Term.exited 1 ∧
    Ev.print (errPrefix ++ e) ∈ (main (some tk) o).events ∧
    remoteTrace (main (some tk) o).events = ["actor.call"]) ∧
  (∀ (tk : String) (o : ScraperOracle Item) (run : RunInfo) (e : String),
    tk.isEmpty = false → o.callRun = .ok run → o.iterItems = .error e →
    (main (some tk) o).term = Term.uncaught e ∧
    remoteTrace (main (some tk) o).events = ["actor.call", "dataset.iterate_items"]) ∧
  (∀ (token : Option String) (o : ScraperOracle Item),
    (remoteTrace (main token o).events).count "actor.call" ≤ 1)

/-- Every instance of the shared scraper skeleton whose result section
makes no remote call is a guarded scraper. -/
theorem scraperMain_guarded {Item : Type} (banner errLine : String)
    (countLine summaryLine : Nat → String) (body : List Item → List Ev)
    (hbody : ∀ items, remoteTrace (body items) = []) :
    guardedScraper (scraperMain banner errLine countLine summaryLine body) errLine := by
  refine ⟨?_, ?_, ?_⟩
  · intro tk o e htk hc
    obtain ⟨cr, ii⟩ := o
    simp only at hc
    subst hc
    simp [scraperMain, htk]
  · intro tk o run e htk hc hi
    obtain ⟨cr, ii⟩ := o
    simp only at hc hi
    subst hc; subst hi
    simp [scraperMain, htk]
  · intro token o
    obtain ⟨cr, ii⟩ := o
    match token with
    | Option.none => simp [scraperMain]
    | some t =>
      by_cases htk : t.isEmpty
      · simp [scraperMain, htk]
      · simp only [scraperMain, htk, Bool.false_eq_true, if_false]
        rcases cr with e | run
        · simp
        rcases ii with e2 | items
        · simp
        simp [hbody]

/-- None of the eight remote calls of 09_dataset_operations.py is inside
a `try/except`: whichever fails first (all earlier ones succeeding), the
exception propagates out of `main` uncaught, and the failing call is the
last remote call made — nothing is retried or attempted after it. -/
def script09FailsUncaught : Prop :=
  ∀ (tk : String) (o : Oracle09) (st0 : DsState) (e : String), tk.isEmpty = false →
    ((o.listDatasets = .error e →
       (script09_main (some tk) o st0).1.term = Term.uncaught e ∧
       remoteTrace (script09_main (some tk) o st0).1.events = ["datasets.list"]) ∧
     (∀ lm, o.listDatasets = .ok lm → o.createResult = .error e →
       (script09_main (some tk) o st0).1.term = Term.uncaught e ∧
       remoteTrace (script09_main (some tk) o st0).1.events =
         ["datasets.list", "datasets.get_or_create"]) ∧
     (∀ lm, o.listDatasets = .ok lm → o.createResult = .ok () → o.pushResult = .error e →
       (script09_main (some tk) o st0).1.term = Term.uncaught e ∧
       remoteTrace (script09_main (some tk) o st0).1.events =
         ["datasets.list", "datasets.get_or_create", "dataset.push_items"]) ∧
     (∀ lm, o.listDatasets = .ok lm → o.createResult = .ok () → o.pushResult = .ok () →
       o.listItems1 = .error e →
       (script09_main (some tk) o st0).1.term = Term.uncaught e ∧
       remoteTrace (script09_main (some tk) o st0).1.events =
         ["datasets.list", "datasets.get_or_create", "dataset.push_items",
          "dataset.list_items"]) ∧
     (∀ lm, o.listDatasets = .ok lm → o.createResult = .ok () → o.pushResult = .ok () →
       o.listItems1 = .ok () → o.iterateResult = .error e →
       (script09_main (some tk) o st0).1.term = Term.uncaught e ∧
       remoteTrace (script09_main (some tk) o st0).1.events =
         ["datasets.list", "datasets.get_or_create", "dataset.push_items",
          "dataset.list_items", "dataset.iterate_items"]) ∧
     (∀ lm, o.listDatasets = .ok lm → o.createResult = .ok () → o.pushResult = .ok () →
       o.listItems1 = .ok () → o.iterateResult = .ok () → o.listItems2 = .error e →
       (script09_main (some tk) o st0).1.term = Term.uncaught e ∧
       remoteTrace (script09_main (some tk) o st0).1.events =
         ["datasets.list", "datasets.get_or_create", "dataset.push_items",
          "dataset.list_items", "dataset.iterate_items", "dataset.list_items"]) ∧
     (∀ lm, o.listDatasets = .ok lm → o.createResult = .ok () → o.pushResult = .ok () →
       o.listItems1 = .ok () → o.iterateResult = .ok () → o.listItems2 = .ok () →
       o.listItems3 = .error e →
       (script09_main (some tk) o st0).1.term = Term.uncaught e ∧
       remoteTrace (script09_main (some tk) o st0).1.events =
         ["datasets.list", "datasets.get_or_create", "dataset.push_items",
          "dataset.list_items", "dataset.iterate_items", "dataset.list_items",
          "dataset.list_items"]) ∧
     (∀ lm, o.listDatasets = .ok lm → o.createResult = .ok () → o.pushResult = .ok () →
       o.listItems1 = .ok () → o.iterateResult = .ok () → o.listItems2 = .ok () →
       o.listItems3 = .ok () → o.getInfoResult = .error e →
       (script09_main (some tk) o st0).1.term = Term.uncaught e ∧
       remoteTrace (script09_main (some tk) o st0).1.events =
         ["datasets.list", "datasets.get_or_create", "dataset.push_items",
          "dataset.list_items", "dataset.iterate_items", "dataset.list_items",
          "dataset.list_items", "dataset.get"]))

/-- C4, amended.  In each scraper script (02-08) the actor-invocation
call is wrapped in its `try/except`: when it raises, the script prints
the error and exits 1 with exactly that one remote call made, and on
every run of each scraper the actor call is issued at most once — so the
failing call is never retried.  The dataset iteration that follows it is
not guarded: its failure propagates out of `main` uncaught.  And in
script 09 no remote call is guarded at all: whichever of its eight remote
calls fails first, the exception propagates out of `main` uncaught with
no further remote call made. -/
theorem c4_claim_amended :
    guardedScraper script02_main "Error: " ∧
    guardedScraper script03_main "Full error: " ∧
    guardedScraper script04_main "Error details: " ∧
    guardedScraper script05_main "Error details: " ∧
    guardedScraper script06_main "Error details: " ∧
    guardedScraper script07_main "Error details: " ∧
    guardedScraper script08_main "Error details: " ∧
    script09FailsUncaught := by
  refine ⟨?_,
    scraperMain_guarded _ _ _ _ body03 remoteTrace_body03,
    scraperMain_guarded _ _ _ _ body04 remoteTrace_body04,
    scraperMain_guarded _ _ _ _ body05 remoteTrace_body05,
    scraperMain_guarded _ _ _ _ body06 remoteTrace_body06,
    scraperMain_guarded _ _ _ _ body07 remoteTrace_body07,
    ?_, ?_⟩
  · refine ⟨?_, ?_, ?_⟩
    · intro tk o e htk hc
      obtain ⟨cr, ii⟩ := o
      simp only at hc
      subst hc
      simp [script02_main, htk]
    · intro tk o run e htk hc hi
      obtain ⟨cr, ii⟩ := o
      simp only at hc hi
      subst hc; subst hi
      simp [script02_main, htk]
    · intro token o
      obtain ⟨cr, ii⟩ := o
      match token with
      | Option.none => simp [script02_main]
      | some t =>
        by_cases htk : t.isEmpty
        · simp [script02_main, htk]
        · simp only [script02_main, htk, Bool.false_eq_true, if_false]
          rcases cr with e | run
          · simp
          rcases ii with e2 | items
          · simp
          cases items with
          | nil => simp
          | cons first rest => simp
  · refine ⟨?_, ?_, ?_⟩
    · intro tk o e htk hc
      obtain ⟨cr, ii⟩ := o
      simp only at hc
      subst hc
      simp [script08_main, htk]
    · intro tk o run e htk hc hi
      obtain ⟨cr, ii⟩ := o
      simp only at hc hi
      subst hc; subst hi
      simp [script08_main, htk]
    · intro token o
      obtain ⟨cr, ii⟩ := o
      match token with
      | Option.none => simp [script08_main]
      | some t =>
        by_cases htk : t.isEmpty
        · simp [script08_main, htk]
        · simp only [script08_main, htk, Bool.false_eq_true, if_false]
          rcases cr with e | run
          · simp
          rcases ii with e2 | items
          · simp
          cases items with
          | nil => simp
          | cons first rest =>
            have hsev : remoteTrace (sampleEvents08 first).1 = [] :=
              remoteTrace_sampleEvents08_fst first
            rcases hs : sampleEvents08 first with ⟨sev, sErr⟩
            rw [hs] at hsev
            cases sErr <;> simp [hs, hsev]
  · intro tk o st0 e htk
    obtain ⟨ld, nid, cr, pr, l1, it, l2, l3, gi⟩ := o
    refine ⟨?_, ?_, ?_, ?_, ?_, ?_, ?_, ?_⟩
    · intro hc
      simp only at hc
      subst hc
      simp [script09_main, htk]
    · intro lm h1 h2
      simp only at h1 h2
      subst h1; subst h2
      simp [script09_main, htk]
    · intro lm h1 h2 h3
      simp only at h1 h2 h3
      subst h1; subst h2; subst h3
      simp [script09_main, htk]
    · intro lm h1 h2 h3 h4
      simp only at h1 h2 h3 h4
      subst h1; subst h2; subst h3; subst h4
      simp [script09_main, htk]
    · intro lm h1 h2 h3 h4 h5
      simp only at h1 h2 h3 h4 h5
      subst h1; subst h2; subst h3; subst h4; subst h5
      simp [script09_main, htk]
    · intro lm h1 h2 h3 h4 h5 h6
      simp only at h1 h2 h3 h4 h5 h6
      subst h1; subst h2; subst h3; subst h4; subst h5; subst h6
      simp [script09_main, htk]
    · intro lm h1 h2 h3 h4 h5 h6 h7
      simp only at h1 h2 h3 h4 h5 h6 h7
      subst h1; subst h2; subst h3; subst h4; subst h5; subst h6; subst h7
      simp [script09_main, htk]
    · intro lm h1 h2 h3 h4 h5 h6 h7 h8
      simp only at h1 h2 h3 h4 h5 h6 h7 h8
      subst h1; subst h2; subst h3; subst h4; subst h5; subst h6; subst h7; subst h8
      simp [script09_main, htk]

/-- C4, witness: the amended theorem applied at concrete failing oracles
— a failing actor call in scripts 02 and 05, a failing dataset iteration
in script 07, and a failing first call in script 09. -/
theorem c4_claim_witness :
    (script02_main (some "tok") ⟨.error "boom", .ok []⟩).term = Term.exited 1 ∧
    (script05_main (some "tok") ⟨.error "boom", .ok []⟩).term = Term.exited 1 ∧
    (script07_main (some "tok") ⟨.ok ⟨some "ds"⟩, .error "net"⟩).term =
      Term.uncaught "net" ∧
    (script09_main (some "tok")
        ⟨.error "boom", "ds", .ok (), .ok (), .ok (), .ok (), .ok (), .ok (), .ok ()⟩
        []).1.term = Term.uncaught "boom" :=
  ⟨(c4_claim_amended.1.1 "tok" ⟨.error "boom", .ok []⟩ "boom" rfl rfl).1,
   (c4_claim_amended.2.2.2.1.1 "tok" ⟨.error "boom", .ok []⟩ "boom" rfl rfl).1,
   (c4_claim_amended.2.2.2.2.2.1.2.1 "tok" ⟨.ok ⟨some "ds"⟩, .error "net"⟩
      ⟨some "ds"⟩ "net" rfl rfl rfl).1,
   ((c4_claim_amended.2.2.2.2.2.2.2 "tok"
      ⟨.error "boom", "ds", .ok (), .ok (), .ok (), .ok (), .ok (), .ok (), .ok ()⟩
      [] "boom" rfl).1 rfl).1⟩

/-!
## Claim C10: the demo schedule of 12_scheduled_tasks.py
-/

/-- The `is_enabled` flags of the schedule-creation calls in a trace. -/
def scheduleCreates (evs : List Ev) : List Bool :=
  evs.filterMap fun e =>
    match e with
    | .createSchedule b => some b
    | _ => Option.none

@[simp] theorem scheduleCreates_nil : scheduleCreates [] = [] := rfl

@[simp] theorem scheduleCreates_append (a b : List Ev) :
    scheduleCreates (a ++ b) = scheduleCreates a ++ scheduleCreates b := by
  simp [scheduleCreates]

@[simp] theorem scheduleCreates_cons_print (s : String) (l : List Ev) :
    scheduleCreates (Ev.print s :: l) = scheduleCreates l := rfl

@[simp] theorem scheduleCreates_cons_client (l : List Ev) :
    scheduleCreates (Ev.constructClient :: l) = scheduleCreates l := rfl

@[simp] theorem scheduleCreates_cons_remote (n : String) (l : List Ev) :
    scheduleCreates (Ev.remoteCall n :: l) = scheduleCreates l := rfl

@[simp] theorem scheduleCreates_cons_row (cells : List String) (l : List Ev) :
    scheduleCreates (Ev.tableRow cells :: l) = scheduleCreates l := rfl

@[simp] theorem scheduleCreates_cons_create (b : Bool) (l : List Ev) :
    scheduleCreates (Ev.createSchedule b :: l) = b :: scheduleCreates l := rfl

@[simp] theorem scheduleCreates_take_row {α : Type} (n : Nat) (f : α → List String)
    (l : List α) :
    scheduleCreates (List.take n (List.map (fun x => Ev.tableRow (f x)) l)) = [] := by
  induction l generalizing n with
  | nil => simp [scheduleCreates]
  | cons a l ih =>
    cases n with
    | zero => rfl
    | succ m =>
      rw [List.map_cons, List.take_succ_cons, scheduleCreates_cons_row]
      exact ih m

@[simp] theorem scheduleCreates_ite (c : Prop) [Decidable c] (a b : List Ev) :
    scheduleCreates (if c then a else b) =
      if c then scheduleCreates a else scheduleCreates b := by
  split <;> rfl

/-- C10, counterexample.  The claim asserts that on every path on which
creation succeeded the script attempts to delete the schedule before
exiting.  But the schedule-details fetch `schedule.get()` (line 176 of
12_scheduled_tasks.py) sits outside any `try/except` between the creation
and the clean-up step: when it raises, the script dies on the uncaught
exception without any `schedule.delete` call — though the schedule it
leaves behind was created disabled. -/
theorem c10_claim_counterexample :
    (script12_main (some "tok")
        ⟨.ok (0, []), .ok "sid", .error "boom", .ok ()⟩).term = Term.uncaught "boom" ∧
    "schedule.delete" ∉ remoteTrace (script12_main (some "tok")
        ⟨.ok (0, []), .ok "sid", .error "boom", .ok ()⟩).events ∧
    Ev.createSchedule false ∈ (script12_main (some "tok")
        ⟨.ok (0, []), .ok "sid", .error "boom", .ok ()⟩).events :=
  ⟨rfl, by decide, by decide⟩

/-- C10, amended.  The demo schedule is always created with
`is_enabled=False` (every schedule-creation call in every trace carries the
flag `false`); on every path on which the creation succeeded and the
subsequent unguarded `schedule.get()` did not raise, the script attempts
to delete the schedule before exiting; and when creation failed no delete
is attempted. -/
theorem c10_claim_disabled_cleanup :
    (∀ (token : Option String) (o : Oracle12),
      scheduleCreates (script12_main token o).events = [] ∨
      scheduleCreates (script12_main token o).events = [false]) ∧
    (∀ (tk : String) (o : Oracle12) (lm : Nat × List SchedMeta) (sid : String),
      tk.isEmpty = false → o.listSchedules = .ok lm → o.createResult = .ok sid →
      o.getInfo = .ok () →
      "schedule.delete" ∈ remoteTrace (script12_main (some tk) o).events) ∧
    (∀ (tk : String) (o : Oracle12) (e : String),
      tk.isEmpty = false → o.createResult = .error e →
      "schedule.delete" ∉ remoteTrace (script12_main (some tk) o).events) := by
  refine ⟨?_, ?_, ?_⟩
  · intro token o
    obtain ⟨ls, cr, gi, dr⟩ := o
    match token with
    | Option.none => simp [script12_main]
    | some t =>
      by_cases htk : t.isEmpty
      · simp [script12_main, htk]
      · simp only [script12_main, htk, Bool.false_eq_true, if_false]
        rcases ls with e | ⟨total, metas⟩
        · simp
        rcases cr with e2 | sid
        · simp
        rcases gi with e3 | u3
        · simp
        rcases dr with e4 | u4
        · simp
        · simp
  · intro tk o lm sid htk hls hc hg
    obtain ⟨ls, cr, gi, dr⟩ := o
    simp only at hls hc hg
    subst hls; subst hc; subst hg
    rcases dr with e4 | u4 <;>
      simp [script12_main, htk]
  · intro tk o e htk hc
    obtain ⟨ls, cr, gi, dr⟩ := o
    simp only at hc
    subst hc
    rcases ls with e2 | ⟨total, metas⟩ <;>
      simp [script12_main, htk]

/-- C10, witness: the amended theorem applied at a concrete oracle on
which everything succeeds (delete attempted) and at one on which creation
fails (no delete attempted). -/
theorem c10_claim_witness :
    "schedule.delete" ∈ remoteTrace (script12_main (some "tok")
        ⟨.ok (0, []), .ok "sid", .ok (), .ok ()⟩).events ∧
    "schedule.delete" ∉ remoteTrace (script12_main (some "tok")
        ⟨.ok (0, []), .error "denied", .ok (), .ok ()⟩).events :=
  ⟨c10_claim_disabled_cleanup.2.1 "tok" ⟨.ok (0, []), .ok "sid", .ok (), .ok ()⟩
      (0, []) "sid" rfl rfl rfl rfl,
   c10_claim_disabled_cleanup.2.2 "tok" ⟨.ok (0, []), .error "denied", .ok (), .ok ()⟩
      "denied" rfl rfl⟩
